import Mathlib

/-!
# RFMS PDF XTRACR client controller (`static/js/main.js`)

A shallow embedding of the resilient HTTP client (`fetchWithRetry`, `handleApiError`),
the contact reconciler (`populateShipTo` and the population done by the upload handler),
the description validator, the builder gate, `formatPhoneNumber`, the reset triggers and
the add-customer and create-job click handlers, followed by the properties established
about them.

Conventions of the embedding
* a JavaScript string is a `String`; an optional property of a JSON record is an
  `Option String` (`none` for an absent, `null` or `undefined` property);
* a decoded JSON value is a `JsVal`;
* the network is an oracle `Nat → Attempt` giving the outcome of the attempt made with a
  given `retryCount`;
* DOM side effects are returned as an explicit list of `Effect`s.
-/

namespace RfmsXtracr

/-! ## JavaScript values -/

/-- A decoded JSON value, with `undefined` for a property that is not there. -/
inductive JsVal where
  | undefined : JsVal
  | null : JsVal
  | bool (b : Bool) : JsVal
  | num (n : Int) : JsVal
  | str (s : String) : JsVal
  | obj (props : List (String × JsVal)) : JsVal

/-- JavaScript truthiness (`ToBoolean`). -/
def JsVal.truthy : JsVal → Bool
  | .undefined => false
  | .null => false
  | .bool b => b
  | .num n => n != 0
  | .str s => s != ""
  | .obj _ => true

/-- Property read `v.key`; reading a property of a non-object yields `undefined`. -/
def JsVal.get (v : JsVal) (key : String) : JsVal :=
  match v with
  | .obj props => (props.lookup key).getD .undefined
  | _ => .undefined

/-- JavaScript `String(v)` as used by `new Error(v)` and template literals. A number is
an integer and is printed in full, as JavaScript does for integers of magnitude below
10^21; larger numbers, which JavaScript prints in exponent form, are outside the model. -/
def JsVal.toStr : JsVal → String
  | .undefined => "undefined"
  | .null => "null"
  | .bool b => if b then "true" else "false"
  | .num n => toString n
  | .str s => s
  | .obj _ => "[object Object]"

/-- Truthiness of an optional string property: present and not the empty string. -/
def truthy (v : Option String) : Bool :=
  match v with
  | some s => s != ""
  | none => false

/-- The JavaScript idiom `v || ''` on an optional string property. -/
def orEmpty (v : Option String) : String :=
  match v with
  | some s => s
  | none => ""

/-- The characters matched by `\s` and stripped by `String.prototype.trim`:
ECMAScript `WhiteSpace` and `LineTerminator`. -/
def isJsSpace (c : Char) : Bool :=
  let n := c.toNat
  n == 0x09 || n == 0x0A || n == 0x0B || n == 0x0C || n == 0x0D || n == 0x20 ||
  n == 0xA0 || n == 0x1680 || (0x2000 ≤ n && n ≤ 0x200A) || n == 0x2028 || n == 0x2029 ||
  n == 0x202F || n == 0x205F || n == 0x3000 || n == 0xFEFF

/-- The method `String.prototype.trim` on a list of characters. -/
def trimChars (cs : List Char) : List Char :=
  ((cs.dropWhile isJsSpace).reverse.dropWhile isJsSpace).reverse

/-- The method `String.prototype.trim`. -/
def jsTrim (s : String) : String := String.mk (trimChars s.data)

/-- Substring test on lists of characters. -/
def includesChars (hay needle : List Char) : Bool :=
  match hay with
  | [] => needle.isEmpty
  | c :: rest => needle.isPrefixOf (c :: rest) || includesChars rest needle

/-- The method `String.prototype.includes`. -/
def jsIncludes (s sub : String) : Bool := includesChars s.data sub.data

/-- The method `Array.prototype.join` on an array of strings. -/
def jsJoin (sep : String) : List String → String
  | [] => ""
  | [x] => x
  | x :: y :: rest => x ++ sep ++ jsJoin sep (y :: rest)

/-! ## Configuration -/

/-- The constant `API_CONFIG.TIMEOUT` (milliseconds). -/
def API_CONFIG.TIMEOUT : Nat := 30000

/-- The constant `API_CONFIG.RETRY_ATTEMPTS`. -/
def API_CONFIG.RETRY_ATTEMPTS : Nat := 2

/-- The constant `API_CONFIG.RETRY_DELAY` (milliseconds). -/
def API_CONFIG.RETRY_DELAY : Nat := 1000

/-! ## Resilient HTTP client -/

/-- What `fetch` resolved with: status line and the body as `response.json()` decodes it
(`none` when the body is not JSON, in which case `response.json()` rejects). -/
structure Response where
  status : Nat
  statusText : String
  body : Option JsVal

/-- The getter `response.ok`: status in the range 200..299. -/
def Response.ok (r : Response) : Bool := 200 ≤ r.status && r.status ≤ 299

/-- A JavaScript error object: `name`, `message` and the optional `status` that
`fetchWithRetry` attaches to HTTP errors. -/
structure JsError where
  name : String
  message : String
  status : Option Nat
deriving DecidableEq

/-- The outcome of one `fetch` call. -/
inductive Attempt where
  /-- `fetch` resolved with a response (of any status). -/
  | response (r : Response) : Attempt
  /-- The per-attempt timer fired and aborted the call: `fetch` rejects with `AbortError`. -/
  | timeout : Attempt
  /-- `fetch` rejected with another error (no HTTP status), e.g. a `TypeError`. -/
  | failure (name message : String) : Attempt

/-- The error thrown for a response that is not `ok` (lines 155-170). -/
def httpError (r : Response) : JsError :=
  let errorMessage := "HTTP error " ++ toString r.status ++ ": " ++ r.statusText
  let errorMessage :=
    match r.body with
    | some errorData =>
      if errorData.truthy && (errorData.get "error").truthy then (errorData.get "error").toStr
      else errorMessage
    | none => errorMessage
  { name := "Error", message := errorMessage, status := some r.status }

/-- The body of the `try` block of one attempt: the response, or the error caught. -/
def attemptResult (a : Attempt) : Except JsError Response :=
  match a with
  | .response r => if !r.ok then .error (httpError r) else .ok r
  | .timeout => .error { name := "AbortError", message := "The user aborted a request.", status := none }
  | .failure name message => .error { name := name, message := message, status := none }

/-- The rewrite of the message of an `AbortError` at the start of the `catch` block
(line 181), modelled as taking effect. On the `DOMException` with which an aborted
`fetch` rejects, `message` is a read-only accessor and the assignment changes nothing;
the retry decision and `handleApiError` read only the name of such an error, so they do
not depend on which of the two messages it carries. -/
def markTimeout (error : JsError) : JsError :=
  if error.name = "AbortError" then { error with message := "Request timed out. Please try again." }
  else error

/-- The comparison `error.status >= 500`, false when there is no status. -/
def statusAtLeast500 (error : JsError) : Bool :=
  match error.status with
  | some s => 500 ≤ s
  | none => false

/-- The retry condition of the `catch` block (lines 185-186). -/
def shouldRetry (retryCount : Nat) (error : JsError) : Bool :=
  retryCount < API_CONFIG.RETRY_ATTEMPTS &&
    (statusAtLeast500 error || error.name == "AbortError" || jsIncludes error.message "network")

/-- What a call of `fetchWithRetry` did: the value it resolved or rejected with, and the
number of `fetch` calls it made. -/
structure FetchRun where
  result : Except JsError Response
  attempts : Nat

/-- The function `fetchWithRetry(url, options, retryCount)`; `net k` is the outcome of the
`fetch` made by the invocation whose `retryCount` is `k`. -/
def fetchWithRetry (net : Nat → Attempt) (retryCount : Nat) : FetchRun :=
  match attemptResult (net retryCount) with
  | .ok response => { result := .ok response, attempts := 1 }
  | .error error =>
    let error := markTimeout error
    if shouldRetry retryCount error then
      let run := fetchWithRetry net (retryCount + 1)
      { run with attempts := run.attempts + 1 }
    else
      { result := .error error, attempts := 1 }
termination_by API_CONFIG.RETRY_ATTEMPTS - retryCount
decreasing_by
  simp only [shouldRetry, Bool.and_eq_true, decide_eq_true_eq] at *
  omega

/-! ## Contact reconciler -/

/-- A member of `alternate_contacts`. -/
structure Contact where
  name : Option String := none
  type : Option String := none
  phone : Option String := none
  email : Option String := none

/-- The extraction result returned by the backend for one uploaded PDF. -/
structure ExtractionResult where
  customer_name : Option String := none
  address : Option String := none
  address1 : Option String := none
  address2 : Option String := none
  city : Option String := none
  zip_code : Option String := none
  state : Option String := none
  country : Option String := none
  email : Option String := none
  phone : Option String := none
  mobile : Option String := none
  home_phone : Option String := none
  work_phone : Option String := none
  po_number : Option String := none
  dollar_value : Option String := none
  scope_of_work : Option String := none
  description_of_works : Option String := none
  supervisor_name : Option String := none
  supervisor_mobile : Option String := none
  supervisor_phone : Option String := none
  commencement_date : Option String := none
  installation_date : Option String := none
  completion_date : Option String := none
  actual_job_number : Option String := none
  /-- The list is `none` when the property is absent (`Array.isArray` is false). -/
  alternate_contacts : Option (List Contact) := none
  extra_phones : Option (List String) := none
  builder_mismatch_warning : Option String := none

/-- The guard `v && v.trim()` on an optional string property. -/
def nonBlank (v : Option String) : Bool :=
  match v with
  | some s => s != "" && jsTrim s != ""
  | none => false

/-- The statement `if (!arr.includes(p)) arr.push(p)`. -/
def pushUnique (arr : List String) (p : String) : List String :=
  if arr.contains p then arr else arr ++ [p]

/-- The expression `[...new Set(arr)]`: the elements in order of first insertion. -/
def jsSetSpread (arr : List String) : List String := arr.foldl pushUnique []

/-- The expression `arr[i] || ''`. -/
def atOrEmpty (arr : List String) (i : Nat) : String := (arr.get? i).getD ""

/-- The array `phoneNumbers` of `populateShipTo` (lines 704-714). -/
def phoneNumbers (data : ExtractionResult) : List String :=
  let arr : List String := []
  let arr := if truthy data.phone then arr ++ [orEmpty data.phone] else arr
  let arr := if truthy data.mobile && data.mobile != data.phone then arr ++ [orEmpty data.mobile] else arr
  let arr := if truthy data.home_phone then arr ++ [orEmpty data.home_phone] else arr
  let arr := if truthy data.work_phone then arr ++ [orEmpty data.work_phone] else arr
  let arr :=
    match data.extra_phones with
    | some extra => extra.foldl (fun (acc : List String) (p : String) => if p != "" && !acc.contains p then acc ++ [p] else acc) arr
    | none => arr
  jsSetSpread (arr.filter (fun p => p != ""))

/-- The name filter of the contact loop (line 738). -/
def contactShown (contact : Contact) : Bool :=
  nonBlank contact.name && contact.name != some "Email"

/-- The text line built for one contact that passes the name filter (lines 739-749). -/
def contactLine (contact : Contact) : String :=
  let line := (if truthy contact.type then orEmpty contact.type else "Contact") ++ ": " ++ orEmpty contact.name
  let line := if nonBlank contact.phone then line ++ " (" ++ orEmpty contact.phone ++ ")" else line
  let line := if nonBlank contact.email then line ++ " - " ++ orEmpty contact.email else line
  line

/-- One iteration of `data.alternate_contacts.forEach` (lines 737-752) on the pair
`(contactTexts, allAvailablePhones)`. -/
def contactStep (acc : List String × List String) (contact : Contact) : List String × List String :=
  if contactShown contact then
    let phones := if nonBlank contact.phone then pushUnique acc.2 (orEmpty contact.phone) else acc.2
    (acc.1 ++ [contactLine contact], phones)
  else acc

/-- One iteration of `extraPhones.forEach` (lines 755-759). -/
def extraStep (phones : List String) (phone : String) : List String :=
  if phone != "" && !phones.contains phone then phones ++ [phone] else phones

/-- The array `contactTexts` after the contact loop. -/
def contactTexts (contacts : List Contact) : List String :=
  (contacts.foldl contactStep ([], [])).1

/-- The array `allAvailablePhones` when the phone assignment starts (line 762): the
phones collected by the contact loop, then the extra phones. -/
def allAvailablePhones (contacts : List Contact) (extraPhones : List String) : List String :=
  extraPhones.foldl extraStep (contacts.foldl contactStep ([], [])).2

/-- The array literal `[data.phone, data.mobile, data.home_phone, data.work_phone]`. -/
def mainPhoneData (data : ExtractionResult) : List (Option String) :=
  [data.phone, data.mobile, data.home_phone, data.work_phone]

/-- The phone assignment (lines 764-786): the pair `(phone3, phone4)`. -/
def assignPhones (data : ExtractionResult) (pool : List String) : String × String :=
  match pool with
  | p0 :: p1 :: _ => (p0, p1)
  | [p0] =>
    let phone3 := p0
    let mainPhones := ((mainPhoneData data).filter (fun p => truthy p && p != some phone3)).map orEmpty
    match mainPhones with
    | m0 :: _ => (phone3, m0)
    | [] => (phone3, "")
  | [] =>
    let mainPhones := ((mainPhoneData data).filter (fun p => truthy p)).map orEmpty
    match mainPhones with
    | m0 :: m1 :: _ => (m0, m1)
    | [m0] => (m0, "")
    | [] => ("", "")

/-- The values `populateShipTo` writes to the form (by element id) and to
`window._lastExtractedAlternateContacts`. -/
structure ShipToFields where
  ship_to_name : String
  ship_to_address1 : String
  ship_to_address2 : String
  ship_to_city : String
  ship_to_zip : String
  ship_to_country : String
  po_number : String
  dollar_value : String
  supervisor_name : String
  supervisor_phone : String
  description_of_works : String
  ship_to_email : String
  pdf_phone1 : String
  pdf_phone2 : String
  ship_to_phone1 : String
  ship_to_phone2 : String
  alternate_contact_name : String
  alternate_contact_phone : String
  alternate_contact_phone2 : String
  pdf_phone3 : String
  pdf_phone4 : String
  alternate_contact_email : String
  lastExtractedAlternateContacts : List Contact

/-- The expression `a || b || ''` on optional string properties. -/
def orElse (a b : Option String) : String :=
  if truthy a then orEmpty a else if truthy b then orEmpty b else ""

/-- The function `populateShipTo(data)` (lines 684-826). -/
def populateShipTo (data : ExtractionResult) : ShipToFields :=
  let numbers := phoneNumbers data
  let contactsResult : String × String × String :=
    match data.alternate_contacts with
    | some contacts =>
      let extraPhones := data.extra_phones.getD []
      let pool := allAvailablePhones contacts extraPhones
      let phones := assignPhones data pool
      (jsJoin "; " (contactTexts contacts), phones.1, phones.2)
    | none => ("", "", "")
  let allContactsText := contactsResult.1
  let phone3 := contactsResult.2.1
  let phone4 := contactsResult.2.2
  let primaryContact : Option Contact :=
    match data.alternate_contacts with
    | some contacts => contacts.head?
    | none => none
  { ship_to_name := orEmpty data.customer_name
    ship_to_address1 := orEmpty data.address1
    ship_to_address2 := orEmpty data.address2
    ship_to_city := orEmpty data.city
    ship_to_zip := orEmpty data.zip_code
    ship_to_country := orEmpty data.country
    po_number := orEmpty data.po_number
    dollar_value := orEmpty data.dollar_value
    supervisor_name := orEmpty data.supervisor_name
    supervisor_phone := orElse data.supervisor_phone data.supervisor_mobile
    description_of_works := orEmpty data.description_of_works
    ship_to_email := orEmpty data.email
    pdf_phone1 := atOrEmpty numbers 0
    pdf_phone2 := atOrEmpty numbers 1
    ship_to_phone1 := atOrEmpty numbers 0
    ship_to_phone2 := atOrEmpty numbers 1
    alternate_contact_name := allContactsText
    alternate_contact_phone := phone3
    alternate_contact_phone2 := phone4
    pdf_phone3 := phone3
    pdf_phone4 := phone4
    alternate_contact_email :=
      match primaryContact with
      | some c => orEmpty c.email
      | none => ""
    lastExtractedAlternateContacts := data.alternate_contacts.getD [] }

/-! ## Form, notifications and session state -/

/-- The form: the value of every element that exists, by element id. -/
structure Dom where
  fields : List (String × String)

/-- The expression `document.getElementById(id)` followed by `.value`: `none` when there
is no such element. -/
def Dom.value (dom : Dom) (id : String) : Option String := dom.fields.lookup id

/-- The expression `document.getElementById(id)?.value || ''`. -/
def Dom.valueOrEmpty (dom : Dom) (id : String) : String := (dom.value id).getD ""

/-- The part of the create-job request body assembled from the form that the workflow
depends on (the address, phone and billing-group entries are copied from the form
unchanged and are left out). -/
structure JobPayload where
  sold_to_id : String
  sold_to_name : String
  ship_to_name : String
  ship_to_id : JsVal
  po_number : String
  description_of_works : String

/-- An observable action of an event handler. -/
inductive Effect where
  /-- The call `showNotification(message, type, duration)`. -/
  | notification (message type : String) (duration : Nat) : Effect
  /-- The call `fetchWithRetry('/api/export-to-rfms', ...)` with the job payload. -/
  | createJobRequest (payload : JobPayload) : Effect

/-- Whether the effect is the create-job network call. -/
def Effect.isCreateJobRequest : Effect → Bool
  | .createJobRequest _ => true
  | .notification _ _ _ => false

/-- The message of a notification of the given type, if the effect is one. -/
def Effect.messageOfType (type : String) : Effect → Option String
  | .notification message t _ => if t = type then some message else none
  | .createJobRequest _ => none

/-- The call `showNotification(message, type)` with the default duration of 3000 ms. -/
def notify (message type : String) : Effect := .notification message type 3000

/-- The state shared by the handlers of `setupAddCustomerAndCreateJob`: the closure
variable `createdCustomerId` and the `disabled` flag of the create-job button. -/
structure Session where
  createdCustomerId : JsVal
  createJobDisabled : Bool

/-- What running a listener leaves behind: the session and the effects, in order. -/
structure Outcome where
  session : Session
  effects : List Effect

/-- The function `handleApiError(error, operation)`: the user message, which is also the
message of the notification it shows with type `error`. -/
def handleApiError (error : JsError) (operation : String) : String :=
  if error.name = "AbortError" then
    "Request timed out while " ++ operation ++ ". Please check your connection and try again."
  else if error.status = some 401 || error.status = some 403 then
    "Authentication failed while " ++ operation ++ ". Please log in again."
  else if error.status = some 404 then
    "Resource not found while " ++ operation ++ "."
  else if statusAtLeast500 error then
    "Server error while " ++ operation ++ ". Please try again later."
  else if error.message != "" then
    error.message
  else
    "An error occurred while " ++ operation ++ ". Please try again."

/-! ## Validation gate -/

/-- The expression `s.split(/\s+/)` on a list of characters: `cur` is the piece being
read (reversed) and `inSep` tells that the previous character was a separator. -/
def splitSpaces : List Char → List Char → Bool → List String
  | [], cur, _ => [String.mk cur.reverse]
  | c :: rest, cur, inSep =>
    if isJsSpace c then
      if inSep then splitSpaces rest cur true
      else String.mk cur.reverse :: splitSpaces rest [] true
    else splitSpaces rest (c :: cur) false

/-- The expression `value.trim().split(/\s+/).filter(Boolean).length`. -/
def wordCount (value : String) : Nat :=
  ((splitSpaces (jsTrim value).data [] false).filter (fun w => w != "")).length

/-- The message shown by `validateDescriptionOfWorks`. -/
def scopeRequiredMessage : String :=
  "General Scope of Works required!  example: Restrectch carpet back in bedroom two or Floor preperation PO for adding to billing group"

/-- The function `validateDescriptionOfWorks()` (lines 1171-1182) on the text of the
description field: its return value, with the button flag and the effects it leaves. -/
def validateDescriptionOfWorks (s : Session) (description : String) : Bool × Outcome :=
  if wordCount description < 5 then
    (false, { session := { s with createJobDisabled := true }, effects := [notify scopeRequiredMessage "error"] })
  else
    (true, { session := { s with createJobDisabled := false }, effects := [] })

/-- The `input` listener of the description field (line 1186). -/
def descriptionInput (s : Session) (dom : Dom) : Outcome :=
  match dom.value "description-of-works" with
  | some description => (validateDescriptionOfWorks s description).2
  | none => { session := s, effects := [] }

/-- The `click` listener of the create-job button registered at top level
(lines 1190-1197). It calls `e.preventDefault()` and returns `false` when the validation
fails, neither of which keeps the other listeners of the button from running. -/
def validationClickListener (s : Session) (dom : Dom) : Outcome :=
  match dom.value "description-of-works" with
  | some description => (validateDescriptionOfWorks s description).2
  | none => { session := s, effects := [] }

/-! ## Create-job handler -/

/-- The array `missingFields` (lines 1050-1054). -/
def missingFields (soldToName soldToCustomerId shipToName poNumber : String) : List String :=
  let missing : List String := []
  let missing := if soldToName = "" then missing ++ ["Builder Name"] else missing
  let missing := if soldToCustomerId = "" then missing ++ ["Builder ID"] else missing
  let missing := if shipToName = "" then missing ++ ["Ship To Name"] else missing
  let missing := if poNumber = "" then missing ++ ["PO Number"] else missing
  missing

/-- The text sent as `description_of_works` (lines 1086-1098): the description field with
the best-contact line appended when any alternate-contact field is filled. -/
def jobDescription (dom : Dom) (description : String) : String :=
  let name := dom.valueOrEmpty "alternate-contact-name"
  let phone := dom.valueOrEmpty "alternate-contact-phone"
  let phone2 := dom.valueOrEmpty "alternate-contact-phone2"
  let email := dom.valueOrEmpty "alternate-contact-email"
  if name != "" || phone != "" || phone2 != "" || email != "" then
    let bestContactStr := "Best Contact: " ++ name ++ " " ++ phone
    let bestContactStr := if phone2 != "" then bestContactStr ++ ", " ++ phone2 else bestContactStr
    let bestContactStr := if email != "" then bestContactStr ++ " (" ++ email ++ ")" else bestContactStr
    description ++ "\n" ++ bestContactStr
  else description

/-- The error with which `response.json()` rejects for a body that is not JSON. -/
def jsonParseError : JsError :=
  { name := "SyntaxError", message := "Unexpected end of JSON input", status := none }

/-- The error thrown by the property read `result.job_id` when `result` is `null`. -/
def nullReadError : JsError :=
  { name := "TypeError", message := "result is null", status := none }

/-- The effects of the `try`/`catch` of the create-job handler (lines 1126-1138) once
`fetchWithRetry` has settled with `result`. -/
def jobResponseEffects (result : Except JsError Response) : List Effect :=
  match result with
  | .ok response =>
    match response.body with
    | none => [notify (handleApiError jsonParseError "creating job in RFMS") "error"]
    | some .null =>
      [notify "Job created in RFMS!" "success",
       notify (handleApiError nullReadError "creating job in RFMS") "error"]
    | some body =>
      if (body.get "job_id").truthy then
        [notify "Job created in RFMS!" "success",
         .notification ("Job created with ID: " ++ (body.get "job_id").toStr) "success" 5000]
      else [notify "Job created in RFMS!" "success"]
  | .error error => [notify (handleApiError error "creating job in RFMS") "error"]

/-- The `click` listener of the create-job button registered by
`setupAddCustomerAndCreateJob` (lines 1019-1147); `net` gives the outcomes of the network
attempts of its `fetchWithRetry` call, should it make one. -/
def createJobHandler (s : Session) (dom : Dom) (net : Nat → Attempt) : Outcome :=
  if !s.createdCustomerId.truthy then
    { session := { s with createJobDisabled := true },
      effects := [notify "Please add the customer to RFMS first." "warning"] }
  else
    match dom.value "sold-to-name", dom.value "ship-to-name", dom.value "po-number" with
    | some soldToNameValue, some shipToNameValue, some poNumberValue =>
      let soldToName := jsTrim soldToNameValue
      let soldToCustomerId :=
        match dom.value "sold-to-rfms-id" with
        | some v => jsTrim v
        | none => ""
      let shipToName := jsTrim shipToNameValue
      let poNumber := jsTrim poNumberValue
      let missing := missingFields soldToName soldToCustomerId shipToName poNumber
      if missing.length > 0 then
        { session := s,
          effects := [notify ("Please complete the following required fields: " ++ jsJoin ", " missing) "warning"] }
      else
        match dom.value "description-of-works" with
        | none => { session := s, effects := [] }
        | some description =>
          let payload : JobPayload :=
            { sold_to_id := soldToCustomerId
              sold_to_name := soldToName
              ship_to_name := shipToName
              ship_to_id := s.createdCustomerId
              po_number := poNumber
              description_of_works := jobDescription dom description }
          let run := fetchWithRetry net 0
          { session := { s with createJobDisabled := false },
            effects :=
              [.notification "Creating job in RFMS..." "info" 0, .createJobRequest payload] ++
                jobResponseEffects run.result }
    | _, _, _ =>
      { session := s, effects := [notify "Form validation error - missing required fields" "error"] }

/-- A `click` event dispatched on the create-job button: its listeners run in the order
of registration, the top-level validation listener (registered when the script is
evaluated) before the handler (registered on `DOMContentLoaded`). -/
def createJobClick (s : Session) (dom : Dom) (net : Nat → Attempt) : Outcome :=
  let validated := validationClickListener s dom
  let handled := createJobHandler validated.session dom net
  { session := handled.session, effects := validated.effects ++ handled.effects }

/-! ## Specification-side definitions -/

/-- First-seen-order deduplication by exact string equality: every value is kept at its
first occurrence and dropped at the later ones. -/
def firstSeen : List String → List String
  | [] => []
  | x :: xs => x :: (firstSeen xs).filter (fun y => y != x)

/-- The phone pool as the specification words it: the phone of every contact that has
one, in list order, followed by every entry of `extra_phones`, deduplicated in first-seen
order. -/
def specPhonePool (contacts : List Contact) (extraPhones : List String) : List String :=
  firstSeen (((contacts.filter (fun c => truthy c.phone)).map (fun c => orEmpty c.phone)) ++ extraPhones)

/-- The phones of the contacts that pass the name filter and whose phone is not blank, in
list order. -/
def shownPhones (contacts : List Contact) : List String :=
  (contacts.filter (fun c => contactShown c && nonBlank c.phone)).map (fun c => orEmpty c.phone)

/-- The labels of the required fields whose trimmed value is empty, in the order Builder
Name, Builder ID, Ship To Name, PO Number. -/
def emptyRequired (soldToName soldToCustomerId shipToName poNumber : String) : List String :=
  ([("Builder Name", soldToName), ("Builder ID", soldToCustomerId), ("Ship To Name", shipToName),
    ("PO Number", poNumber)].filter (fun f => jsTrim f.2 = "")).map Prod.fst

/-! ## Concrete inputs -/

/-- An extraction with an empty contact list, no extra phones, and the same number as
phone and as mobile. -/
def samePhoneAndMobile : ExtractionResult :=
  { phone := some "0400111222", mobile := some "0400111222", alternate_contacts := some [] }

/-- An extraction with two extra phones and no `alternate_contacts` property. -/
def extrasWithoutContactList : ExtractionResult :=
  { extra_phones := some ["0400111222", "0400333444"] }

/-- An extraction with two extra phones and an empty `alternate_contacts` list. -/
def extrasWithEmptyContactList : ExtractionResult :=
  { extra_phones := some ["0400111222", "0400333444"], alternate_contacts := some [] }

/-- An extraction with a main phone, one extra phone and no `alternate_contacts`
property. -/
def oneExtraWithoutContactList : ExtractionResult :=
  { phone := some "0400999888", extra_phones := some ["0400111222"] }

/-- An extraction whose only pooled phone is the one of the site contact. -/
def singlePooledPhone : ExtractionResult :=
  { phone := some "0400111222", mobile := some "0400555666",
    alternate_contacts := some [{ name := some "Sam Lee", type := some "Site Contact", phone := some "0400111222" }] }

/-- A contact list whose only entry has a phone but no name. -/
def unnamedContactWithPhone : List Contact :=
  [{ type := some "Site Contact", phone := some "0400111222" }]

/-- A session in which a customer has been created. -/
def customerCreatedSession : Session :=
  { createdCustomerId := .str "CREATED", createJobDisabled := false }

/-- A session in which no customer is held. -/
def noCustomerSession : Session :=
  { createdCustomerId := .null, createJobDisabled := true }

/-- A form with every required field filled and a two-word description. -/
def shortDescriptionForm : Dom :=
  { fields := [("sold-to-name", "Acme Builders"), ("sold-to-rfms-id", "1747"),
      ("ship-to-name", "Jane Doe"), ("po-number", "PO-1"), ("description-of-works", "Fix carpet")] }

/-- A form whose PO number is whitespace only and whose builder id field is empty. -/
def blankPoForm : Dom :=
  { fields := [("sold-to-name", "Acme Builders"), ("sold-to-rfms-id", ""),
      ("ship-to-name", "Jane Doe"), ("po-number", "  "),
      ("description-of-works", "Restretch carpet back in bedroom two")] }

/-- A network on which every attempt is answered `200 OK` with a job id. -/
def netJobCreated : Nat → Attempt := fun _ =>
  .response { status := 200, statusText := "OK", body := some (.obj [("job_id", .num 7)]) }

/-- Responses that are all `503 Service Unavailable`, the third one with an error body. -/
def resp503 : Nat → Response := fun k =>
  { status := 503, statusText := "Service Unavailable",
    body := if k = 2 then some (.obj [("error", .str "RFMS is down")]) else none }

/-- A network on which every attempt is answered `404` with an error text that contains
the word network. -/
def net404 : Nat → Attempt := fun _ =>
  .response { status := 404, statusText := "Not Found",
              body := some (.obj [("error", .str "Customer network record not found")]) }

/-- A network on which every attempt fails at transport level the way Chrome reports
it. -/
def netFailedToFetch : Nat → Attempt := fun _ => .failure "TypeError" "Failed to fetch"

/-! ## Upload population -/

/-- The lower-case form of one character under `String.prototype.toLowerCase`, for every
character whose lower-case form contains an ASCII character: the letters A-Z, the Kelvin
sign and the dotted capital I. The other characters, whose lower-case forms contain no
ASCII character, are left as they are; that does not change whether a string contains
one of the ASCII priority labels. -/
def lowerChar (c : Char) : List Char :=
  if c.toNat = 0x212A then ['k']
  else if c.toNat = 0x130 then ['i', Char.ofNat 0x307]
  else [c.toLower]

/-- The method `String.prototype.toLowerCase` (see `lowerChar`). -/
def jsToLowerCase (s : String) : String := String.mk (s.data.map lowerChar).flatten

/-- The array `priorities` of the upload handler (line 582). -/
def priorities : List String :=
  ["Decision Maker", "Best Contact", "Site Contact", "Authorised Contact", "Occupant Contact"]

/-- The predicate `c => c.type && c.type.toLowerCase().includes(type.toLowerCase())`. -/
def typeIncludes (type : String) (c : Contact) : Bool :=
  truthy c.type && jsIncludes (jsToLowerCase (orEmpty c.type)) (jsToLowerCase type)

/-- The loop `for (const type of priorities)` (lines 583-586): the first `find` that
returns a contact ends the loop. -/
def findByPriority (contacts : List Contact) : List String → Option Contact
  | [] => none
  | type :: rest =>
    match contacts.find? (typeIncludes type) with
    | some c => some c
    | none => findByPriority contacts rest

/-- The variable `bestContact` after lines 581-589. -/
def bestContact (contacts : List Contact) : Option Contact :=
  match findByPriority contacts priorities with
  | some c => some c
  | none => contacts.head?

/-- The function `setValue(elementId, value)`: sets the value of the element when it
exists and does nothing otherwise. -/
def Dom.setValue (dom : Dom) (elementId value : String) : Dom :=
  { fields := dom.fields.map (fun f => if f.1 = elementId then (f.1, value) else f) }

/-- The `setValue` calls of the name split (lines 535-544). -/
def nameAssignments (data : ExtractionResult) : List (String × String) :=
  if truthy data.customer_name then
    let nameParts := splitSpaces (jsTrim (orEmpty data.customer_name)).data [] false
    if nameParts.length ≥ 2 then
      [("ship-to-first-name", atOrEmpty nameParts 0),
       ("ship-to-last-name", jsJoin " " (nameParts.drop 1))]
    else if nameParts.length = 1 then
      [("ship-to-first-name", ""), ("ship-to-last-name", atOrEmpty nameParts 0)]
    else []
  else []

/-- The `setValue` calls for the dates (lines 571-576). -/
def dateAssignments (data : ExtractionResult) : List (String × String) :=
  (if truthy data.commencement_date then [("commencement-date", orEmpty data.commencement_date)] else []) ++
  (if truthy data.installation_date || truthy data.completion_date then
    [("completion-date", orElse data.installation_date data.completion_date)] else [])

/-- The `setValue` call for the best contact (lines 579-594). -/
def bestContactAssignments (data : ExtractionResult) : List (String × String) :=
  match data.alternate_contacts with
  | some contacts =>
    if contacts.length > 0 then
      match bestContact contacts with
      | some c => [("alternate-contact-name", orEmpty c.name)]
      | none => []
    else []
  | none => []

/-- The `setValue` calls for phone 3 and phone 4 (lines 597-602). -/
def extraPhoneAssignments (data : ExtractionResult) : List (String × String) :=
  match data.extra_phones with
  | some extra =>
    if extra.length > 0 then
      [("alternate-contact-phone", atOrEmpty extra 0)] ++
        (if extra.length > 1 then [("alternate-contact-phone2", atOrEmpty extra 1)] else [])
    else []
  | none => []

/-- The `setValue` calls of the upload handler for an extraction result that is used
(lines 531-602), in the order in which they are made. -/
def uploadAssignments (data : ExtractionResult) : List (String × String) :=
  [("ship-to-name", orEmpty data.customer_name)] ++
  nameAssignments data ++
  [("ship-to-address1", orElse data.address1 data.address),
   ("ship-to-address2", orEmpty data.address2),
   ("ship-to-city", orEmpty data.city),
   ("ship-to-zip", orEmpty data.zip_code),
   ("ship-to-state", orEmpty data.state),
   ("ship-to-email", orEmpty data.email),
   ("ship-to-phone1", orEmpty data.phone),
   ("ship-to-phone2", orElse data.mobile data.work_phone),
   ("pdf-phone1", orEmpty data.phone),
   ("pdf-phone2", orElse data.mobile data.work_phone),
   ("po-number", orEmpty data.po_number),
   ("dollar-value", orEmpty data.dollar_value),
   ("description-of-works", orElse data.scope_of_work data.description_of_works),
   ("supervisor-name", orEmpty data.supervisor_name),
   ("supervisor-phone", orElse data.supervisor_mobile data.supervisor_phone)] ++
  dateAssignments data ++
  bestContactAssignments data ++
  extraPhoneAssignments data

/-- The form after a list of `setValue` calls. -/
def Dom.setAll (dom : Dom) (assignments : List (String × String)) : Dom :=
  assignments.foldl (fun d a => d.setValue a.1 a.2) dom

/-- The form after the upload handler has populated it from the extraction result. -/
def populateFromUpload (dom : Dom) (data : ExtractionResult) : Dom :=
  dom.setAll (uploadAssignments data)

/-! ## Add-customer handler -/

/-- The operator `a || b` on values. -/
def jsOr (a b : JsVal) : JsVal := if a.truthy then a else b

/-- The comparison `v === s` with a string literal. -/
def JsVal.isStr (v : JsVal) (s : String) : Bool :=
  match v with
  | .str t => t == s
  | _ => false

/-- The expression assigned to `customerId` in the new-customer branch (lines 985-987);
`result.result?.id` is `undefined` whenever `result.result` has no such property. -/
def customerIdOf (result : JsVal) : JsVal :=
  jsOr (result.get "id") (jsOr (result.get "customerId") (jsOr (result.get "customerSeqNum")
    (jsOr ((result.get "result").get "id") (jsOr ((result.get "result").get "customerId")
      (jsOr ((result.get "result").get "customerSeqNum")
        (jsOr ((result.get "data").get "id") (jsOr ((result.get "data").get "customerId")
          ((result.get "data").get "customerSeqNum"))))))))

/-- The outcome of the `catch` block of the add-customer handler (lines 1010-1012). -/
def customerCallFailed (s : Session) (error : JsError) : Outcome :=
  { session := { s with createJobDisabled := true },
    effects := [notify (handleApiError error "creating customer in RFMS") "error"] }

/-- The `try`/`catch` of the add-customer handler (lines 965-1012) once `fetchWithRetry`
has settled with `settled`. -/
def customerResponse (s : Session) (settled : Except JsError Response) : Outcome :=
  match settled with
  | .error error => customerCallFailed s error
  | .ok response =>
    match response.body with
    | none => customerCallFailed s jsonParseError
    | some result =>
      if result.truthy && (result.get "status").isStr "failed" && (result.get "detail").truthy &&
          ((result.get "detail").get "existingCustomerId").truthy then
        let customerId := (result.get "detail").get "existingCustomerId"
        { session := { createdCustomerId := customerId, createJobDisabled := false },
          effects := [notify ("Customer already exists in RFMS! Using existing ID: " ++ customerId.toStr) "info"] }
      else if result.truthy then
        let customerId := customerIdOf result
        if customerId.truthy then
          { session := { createdCustomerId := customerId, createJobDisabled := false },
            effects := [notify ("Customer created in RFMS! ID: " ++ customerId.toStr) "success"] }
        else if result.truthy && !(result.get "error").truthy && response.ok &&
            !(result.get "status").isStr "failed" then
          { session := { createdCustomerId := .str "CREATED", createJobDisabled := false },
            effects := [notify "Customer created in RFMS! (ID not returned)" "success"] }
        else
          { session := { s with createJobDisabled := true },
            effects := [notify ("Failed to create customer: " ++
              (jsOr (result.get "result") (.str "Unknown error")).toStr) "error"] }
      else
        { session := { s with createJobDisabled := true },
          effects := [notify "Failed to create customer in RFMS." "error"] }

/-- The ids of the elements whose `.value` the add-customer handler reads without a
guard (lines 946-954); the handler throws before its request when one is missing. -/
def shipToRequiredIds : List String :=
  ["ship-to-address1", "ship-to-address2", "ship-to-city", "ship-to-zip", "pdf-phone1",
   "pdf-phone2", "ship-to-email"]

/-- The `click` listener of the add-customer button (lines 941-1017); `net` gives the
outcomes of the network attempts of its `fetchWithRetry('/api/create_customer')` call,
whose body is the ship-to record gathered from the form. -/
def addCustomerHandler (s : Session) (dom : Dom) (net : Nat → Attempt) : Outcome :=
  if shipToRequiredIds.all (fun id => (dom.value id).isSome) then
    customerResponse s (fetchWithRetry net 0).result
  else { session := s, effects := [] }

/-! ## Specification-side definitions for the upload, the validator and the customer call -/

/-- The whitespace-separated tokens of a text: the non-empty pieces obtained by splitting
it at every whitespace character. -/
def tokens (text : String) : List String :=
  ((text.data.splitOnP isJsSpace).filter (fun piece => piece != [])).map String.mk

/-- The ranked labels in the order the specification gives them. -/
def rankedLabels : List String :=
  ["Decision Maker", "Best Contact", "Site Contact", "Authorised Contact", "Occupant Contact"]

/-- The characters the ranked labels consist of: the ASCII letters and the space. -/
def labelChars : List Char := "abcdefghijklmnopqrstuvwxyzABCDEFGHIJKLMNOPQRSTUVWXYZ ".data

/-- The case-folded form of a character: two characters are the same letter up to case
when their folded forms are equal. The letters A-Z fold to a-z and the Kelvin sign folds
to k; every other character folds to itself. -/
def foldCase (c : Char) : Char := if c = Char.ofNat 0x212A then 'k' else c.toLower

/-- Whether the text starts with the label up to case: the text has a character for each
character of the label, position by position the same letter up to case. -/
def matchesIgnoringCase : List Char → List Char → Bool
  | [], _ => true
  | _ :: _, [] => false
  | l :: ls, c :: cs => (foldCase c == foldCase l) && matchesIgnoringCase ls cs

/-- Whether the label is case-insensitively contained in the text: at some position of
the text the label occurs up to case. -/
def containsIgnoringCase (text label : String) : Bool :=
  text.data.tails.any (matchesIgnoringCase label.data)

/-- Whether the type of a contact case-insensitively contains the label; a contact
without a type contains no label. -/
def typeContainsLabel (label : String) (c : Contact) : Bool :=
  match c.type with
  | some t => containsIgnoringCase t label
  | none => false

/-- The primary contact as the specification words it: for the highest-ranked label
case-insensitively contained in the type of some contact, the first contact whose type
contains it; the first contact of the list when no type contains a label. -/
def specPrimaryContact (contacts : List Contact) : Option Contact :=
  match rankedLabels.find? (fun label => contacts.any (typeContainsLabel label)) with
  | some label => contacts.find? (typeContainsLabel label)
  | none => contacts.head?

/-- The best-contact summary in the words of the specification, for a given reading
`has` of "the value is there": one segment "type: name" per contact whose name is there
and is not "Email" (with "Contact" for a missing type), followed by " (phone)" when the
phone is there and by " - email" when the email is there, the segments joined by "; ". -/
def summaryOf (has : Option String → Bool) (contacts : List Contact) : String :=
  jsJoin "; " ((contacts.filter (fun c => has c.name && c.name != some "Email")).map (fun c =>
    (if truthy c.type then orEmpty c.type else "Contact") ++ ": " ++ orEmpty c.name ++
      (if has c.phone then " (" ++ orEmpty c.phone ++ ")" else "") ++
      (if has c.email then " - " ++ orEmpty c.email else "")))

/-- The best-contact summary as the specification words it: a value is there when it is
not the empty string. -/
def specSummary (contacts : List Contact) : String := summaryOf truthy contacts

/-- The value of an optional property as a list: the value when it is there and not the
empty string, nothing otherwise. -/
def presentValue (v : Option String) : List String :=
  if truthy v then [orEmpty v] else []

/-- The non-empty main and extra numbers in the order phone, mobile, home_phone,
work_phone, extra phones. -/
def mainAndExtraNumbers (data : ExtractionResult) : List String :=
  (((mainPhoneData data).map orEmpty) ++ data.extra_phones.getD []).filter (fun p => p != "")

/-- The identifier fields of a create-customer response in the order in which they are
consulted. -/
def idCandidates (result : JsVal) : List JsVal :=
  [result.get "id", result.get "customerId", result.get "customerSeqNum",
   (result.get "result").get "id", (result.get "result").get "customerId",
   (result.get "result").get "customerSeqNum",
   (result.get "data").get "id", (result.get "data").get "customerId",
   (result.get "data").get "customerSeqNum"]

/-- Whether a property is there: neither `undefined` nor `null`. -/
def JsVal.isPresent : JsVal → Bool
  | .undefined => false
  | .null => false
  | _ => true

/-! ## Concrete inputs for the upload, the validator and the customer call -/

/-- An extraction whose single pooled phone is the main phone, with a home phone and no
mobile. -/
def pooledPhoneWithHomePhone : ExtractionResult :=
  { phone := some "0400111222", home_phone := some "0733334444",
    alternate_contacts := some [{ name := some "Sam Lee", type := some "Site Contact", phone := some "0400111222" }] }

/-- An extraction with an empty contact list whose phone and mobile are the same number
and whose work phone is another one. -/
def samePhoneAndMobileWithWork : ExtractionResult :=
  { phone := some "0400111222", mobile := some "0400111222", work_phone := some "0733334444",
    alternate_contacts := some [] }

/-- An extraction with a mobile and no phone. -/
def mobileOnly : ExtractionResult := { mobile := some "0400555666" }

/-- An extraction without customer name. -/
def noCustomerName : ExtractionResult := { address1 := some "1 High St" }

/-- An extraction for the customer "Jane Mary Doe", spaced unevenly. -/
def janeMaryDoe : ExtractionResult := { customer_name := some "  Jane  Mary\tDoe " }

/-- A form left by an earlier upload for "Jane Doe". -/
def formAfterJaneDoe : Dom :=
  { fields := [("ship-to-name", "Jane Doe"), ("ship-to-first-name", "Jane"),
      ("ship-to-last-name", "Doe"), ("ship-to-address1", "9 Low Rd")] }

/-- A contact list whose only entry has a whitespace-only name. -/
def blankNamedContact : List Contact :=
  [{ name := some "  ", type := some "Site Contact" }]

/-- Two named contacts, the second without type, phone or email. -/
def twoNamedContacts : ExtractionResult :=
  { alternate_contacts := some
      [{ name := some "Bob Ray", type := some "Site Contact", phone := some "0400111222",
         email := some "bob@example.com" },
       { name := some "Email", phone := some "0400999888" },
       { name := some "Al Kent" }] }

/-- A duplicate-customer response that also carries a top-level id. -/
def duplicateResponse : Response :=
  { status := 200, statusText := "OK",
    body := some (.obj [("status", .str "failed"), ("id", .num 7),
      ("detail", .obj [("existingCustomerId", .num 4821)])]) }

/-- A new-customer response whose identifier sits under `result`. -/
def nestedIdResponse : Response :=
  { status := 200, statusText := "OK",
    body := some (.obj [("status", .str "success"), ("result", .obj [("customerId", .num 913)])]) }

/-- A new-customer response whose top-level id is 0 and whose sequence number is 55. -/
def zeroIdResponse : Response :=
  { status := 200, statusText := "OK",
    body := some (.obj [("id", .num 0), ("customerSeqNum", .num 55)]) }

/-- A form in which the ship-to elements read by the add-customer handler exist. -/
def formWithShipTo : Dom :=
  { fields := [("ship-to-first-name", "Jane"), ("ship-to-last-name", "Doe"),
      ("ship-to-address1", "1 High St"), ("ship-to-address2", ""), ("ship-to-city", "Brisbane"),
      ("ship-to-zip", "4000"), ("pdf-phone1", "0400111222"), ("pdf-phone2", ""),
      ("ship-to-email", "jane@example.com")] }

/-- A network that answers the first attempt with the duplicate-customer response. -/
def netDuplicate : Nat → Attempt := fun _ => .response duplicateResponse

/-- A network that answers the first attempt with the nested-identifier response. -/
def netNestedId : Nat → Attempt := fun _ => .response nestedIdResponse

/-- A network that answers the first attempt with the zero-id response. -/
def netZeroId : Nat → Attempt := fun _ => .response zeroIdResponse

/-! ## Builder gate, error reporting, phone formatting and reset triggers -/

/-- What `checkBuilderSelected` leaves behind: the `disabled` flag of the upload button
and the notifications shown. -/
structure BuilderCheck where
  uploadDisabled : Bool
  effects : List Effect

/-- The function `checkBuilderSelected()` (lines 1212-1222) on the value of the
builder-name field. -/
def checkBuilderSelected (value : String) : BuilderCheck :=
  let builderSelected := value != "" && jsTrim value != ""
  { uploadDisabled := !builderSelected,
    effects :=
      if !builderSelected then [notify "Please select a builder before uploading a PDF" "warning"]
      else [] }

/-- A call of `handleApiError(error, operation)`: the message returned and the
notification shown (lines 205-228). -/
def handleApiErrorCall (error : JsError) (operation : String) : String × List Effect :=
  let userMessage := handleApiError error operation
  (userMessage, [notify userMessage "error"])

/-- The character class `\d`. -/
def isDigit (c : Char) : Bool := '0' ≤ c && c ≤ '9'

/-- A match of a pattern `^(\d{a})(\d{b})...$`, given by the list of group sizes, against
the whole string: the captured groups, or `none` when the pattern does not match. -/
def matchGroups : List Nat → List Char → Option (List String)
  | [], [] => some []
  | [], _ :: _ => none
  | n :: sizes, cs =>
    if n ≤ cs.length && (cs.take n).all isDigit then
      match matchGroups sizes (cs.drop n) with
      | some groups => some (String.mk (cs.take n) :: groups)
      | none => none
    else none

/-- The call `s.replace(/^(\d{a})(\d{b})...$/, '$1 $2 ...')`: the groups separated by
single spaces when the pattern matches, the string unchanged otherwise. -/
def replaceGroups (sizes : List Nat) (s : String) : String :=
  match matchGroups sizes s.data with
  | some groups => jsJoin " " groups
  | none => s

/-- The function `formatPhoneNumber(phoneNumberString)` (lines 310-329). -/
def formatPhoneNumber (phoneNumberString : String) : String :=
  let cleaned := String.mk (phoneNumberString.data.filter isDigit)
  if cleaned.data.length = 10 && "04".data.isPrefixOf cleaned.data then
    replaceGroups [4, 3, 3] cleaned
  else if cleaned.data.length = 10 && "0".data.isPrefixOf cleaned.data &&
      !"04".data.isPrefixOf cleaned.data then
    replaceGroups [1, 4, 4] cleaned
  else if cleaned.data.length = 11 && "61".data.isPrefixOf cleaned.data then
    "+" ++ replaceGroups [2, 1, 4, 4] cleaned
  else phoneNumberString

/-- The helper `resetJobCreationState()` (lines 924-927). -/
def resetJobCreationState (_s : Session) : Session :=
  { createdCustomerId := .null, createJobDisabled := true }

/-- The ids of the elements on which `resetJobCreationState` is registered as `click`
listener, when they exist (the array `clearTriggers`, lines 930-934). -/
def clearTriggers : List String := ["upload-button", "pdf-upload", "clear-form-button"]

/-- The page: the session of `setupAddCustomerAndCreateJob` and the form. -/
structure Page where
  session : Session
  dom : Dom

/-- The fields emptied by the clear-data handler (lines 627-666). -/
def clearedFields : List String :=
  ["po-number", "dollar-value", "description-of-works", "commencement-date", "completion-date",
   "supervisor-name", "supervisor-phone",
   "ship-to-first-name", "ship-to-last-name", "ship-to-name", "ship-to-address1",
   "ship-to-address2", "ship-to-city", "ship-to-state", "ship-to-zip", "ship-to-county",
   "ship-to-phone1", "ship-to-phone2", "ship-to-email", "pdf-phone1", "pdf-phone2",
   "alternate-contact-name", "alternate-contact-phone", "alternate-contact-phone2",
   "alternate-contact-email"]

/-- A `click` on the element with the given id, for the listeners that touch the session
or the form: `resetJobCreationState` on the elements of `clearTriggers`, and the
clear-data handler on `clear-data-btn`, which clears the form when the user confirms. The
click listener of `upload-pdf-btn` only opens the file dialog (and stops the propagation
of the event). -/
def clickElement (page : Page) (id : String) (confirmed : Bool) : Page :=
  let session := if clearTriggers.contains id then resetJobCreationState page.session else page.session
  let dom :=
    if id = "clear-data-btn" && confirmed then page.dom.setAll (clearedFields.map (fun f => (f, "")))
    else page.dom
  { session := session, dom := dom }

/-- The `change` event of `pdf-file-input` for a file whose extraction succeeds with
`data` (lines 465-616): the form is populated; the session is out of its reach. -/
def fileInputChange (page : Page) (data : ExtractionResult) : Page :=
  { page with dom := populateFromUpload page.dom data }

/-- A timeout as `fetchWithRetry` throws it once the retries are used up. -/
def timeoutError : JsError :=
  { name := "AbortError", message := "Request timed out. Please try again.", status := none }

/-- A page on which a customer has been created and the form filled. -/
def pageWithCustomer : Page := { session := customerCreatedSession, dom := shortDescriptionForm }

/-- A form with every required field filled and a six-word description. -/
def completeForm : Dom :=
  { fields := [("sold-to-name", "Acme Builders"), ("sold-to-rfms-id", "1747"),
      ("ship-to-name", "Jane Doe"), ("po-number", "PO-1"),
      ("description-of-works", "Restretch carpet back in bedroom two")] }

/-- A create-customer response with an empty body object. -/
def emptyObjectResponse : Response := { status := 201, statusText := "Created", body := some (.obj []) }

/-- A create-customer response whose body is the JSON value `null`. -/
def nullBodyResponse : Response := { status := 200, statusText := "OK", body := some .null }

/-- A network that answers the first attempt with the empty-object response. -/
def netEmptyObject : Nat → Attempt := fun _ => .response emptyObjectResponse

/-- A network that answers the first attempt with the `null` body. -/
def netNullBody : Nat → Attempt := fun _ => .response nullBodyResponse

/-- Whether the form passes the checks the create-job handler makes before its request:
the three required elements exist, no required field is empty after trimming, and the
description element exists. -/
def formComplete (dom : Dom) : Bool :=
  match dom.value "sold-to-name", dom.value "ship-to-name", dom.value "po-number" with
  | some soldToNameValue, some shipToNameValue, some poNumberValue =>
    (missingFields (jsTrim soldToNameValue)
        (match dom.value "sold-to-rfms-id" with
          | some v => jsTrim v
          | none => "")
        (jsTrim shipToNameValue) (jsTrim poNumberValue)).length = 0 &&
      (dom.value "description-of-works").isSome
  | _, _, _ => false

/-- A create-customer response `204 No Content`, whose body is not JSON. -/
def noContentResponse : Response := { status := 204, statusText := "No Content", body := none }

/-- A network that answers the first attempt with `204 No Content`. -/
def netNoContent : Nat → Attempt := fun _ => .response noContentResponse

/-! ## Resilient HTTP client: properties -/

theorem fetchWithRetry_ok (net : Nat → Attempt) (k : Nat) (r : Response)
    (h : attemptResult (net k) = .ok r) :
    fetchWithRetry net k = { result := .ok r, attempts := 1 } := by
  rw [fetchWithRetry, h]

theorem fetchWithRetry_retry (net : Nat → Attempt) (k : Nat) (e : JsError)
    (h : attemptResult (net k) = .error e) (hr : shouldRetry k (markTimeout e) = true) :
    fetchWithRetry net k =
      { result := (fetchWithRetry net (k + 1)).result,
        attempts := (fetchWithRetry net (k + 1)).attempts + 1 } := by
  rw [fetchWithRetry, h]
  simp [hr]

theorem fetchWithRetry_throw (net : Nat → Attempt) (k : Nat) (e : JsError)
    (h : attemptResult (net k) = .error e) (hr : shouldRetry k (markTimeout e) = false) :
    fetchWithRetry net k = { result := .error (markTimeout e), attempts := 1 } := by
  rw [fetchWithRetry, h]
  simp [hr]

theorem attemptResult_503 (r : Response) (h : r.status = 503) :
    attemptResult (.response r) = .error (httpError r) := by
  simp [attemptResult, Response.ok, h]

theorem markTimeout_httpError (r : Response) : markTimeout (httpError r) = httpError r := by
  simp [markTimeout, httpError]

theorem shouldRetry_503 (r : Response) (h : r.status = 503) (k : Nat) :
    shouldRetry k (httpError r) = decide (k < 2) := by
  simp [shouldRetry, statusAtLeast500, httpError, h, API_CONFIG.RETRY_ATTEMPTS]

/-- C3, evaluated on the code: when every attempt is answered `404` with the error text
"Customer network record not found", `fetchWithRetry` started with `retryCount` 0 does
not stop after the first attempt; it makes three attempts before it throws the error of
status 404. -/
theorem fetchWithRetry_retries_404_mentioning_network :
    (fetchWithRetry net404 0).attempts = 3 ∧
      (fetchWithRetry net404 0).result =
        .error { name := "Error", message := "Customer network record not found", status := some 404 } := by
  have e : ∀ k, attemptResult (net404 k) =
      .error { name := "Error", message := "Customer network record not found", status := some 404 } := by
    intro k; rfl
  have h2 := fetchWithRetry_throw net404 2 _ (e 2) (by decide)
  have h1 := fetchWithRetry_retry net404 1 _ (e 1) (by decide)
  have h0 := fetchWithRetry_retry net404 0 _ (e 0) (by decide)
  rw [h0, h1, h2]
  exact ⟨rfl, rfl⟩

/-- C4: when every attempt is answered with status 503, `fetchWithRetry` started with
`retryCount` 0 makes exactly three attempts and then throws the error built from the
third response, whose status is 503. -/
theorem fetchWithRetry_all_503 (resp : Nat → Response) (h : ∀ k, (resp k).status = 503) :
    (fetchWithRetry (fun k => .response (resp k)) 0).attempts = 3 ∧
      (fetchWithRetry (fun k => .response (resp k)) 0).result = .error (httpError (resp 2)) ∧
      (httpError (resp 2)).status = some 503 := by
  have h2 : fetchWithRetry (fun k => .response (resp k)) 2 =
      { result := .error (httpError (resp 2)), attempts := 1 } := by
    have := fetchWithRetry_throw (fun k => .response (resp k)) 2 (httpError (resp 2))
      (attemptResult_503 _ (h 2)) (by rw [markTimeout_httpError, shouldRetry_503 _ (h 2)]; rfl)
    rw [this, markTimeout_httpError]
  have h1 := fetchWithRetry_retry (fun k => .response (resp k)) 1 (httpError (resp 1))
      (attemptResult_503 _ (h 1)) (by rw [markTimeout_httpError, shouldRetry_503 _ (h 1)]; rfl)
  have h0 := fetchWithRetry_retry (fun k => .response (resp k)) 0 (httpError (resp 0))
      (attemptResult_503 _ (h 0)) (by rw [markTimeout_httpError, shouldRetry_503 _ (h 0)]; rfl)
  rw [h0, h1, h2]
  refine ⟨rfl, rfl, ?_⟩
  simp [httpError, h 2]

/-- C4 at three `503 Service Unavailable` answers, the third carrying the error text
"RFMS is down": three attempts, and that text is the message thrown. -/
theorem fetchWithRetry_all_503_witness :
    (∀ k, (resp503 k).status = 503) ∧
      ((fetchWithRetry (fun k => .response (resp503 k)) 0).attempts = 3 ∧
        (fetchWithRetry (fun k => .response (resp503 k)) 0).result = .error (httpError (resp503 2)) ∧
        (httpError (resp503 2)).status = some 503) ∧
      (httpError (resp503 2)).message = "RFMS is down" :=
  ⟨fun _ => rfl, fetchWithRetry_all_503 resp503 (fun _ => rfl), by decide⟩

/-- C5, evaluated on the code: a transport-level failure reported as the `TypeError`
"Failed to fetch" (no HTTP status) on the first attempt is not retried; `fetchWithRetry`
started with `retryCount` 0 throws it after a single attempt. -/
theorem fetchWithRetry_failed_to_fetch_not_retried :
    (fetchWithRetry netFailedToFetch 0).attempts = 1 ∧
      (fetchWithRetry netFailedToFetch 0).result =
        .error { name := "TypeError", message := "Failed to fetch", status := none } := by
  have h0 := fetchWithRetry_throw netFailedToFetch 0
    { name := "TypeError", message := "Failed to fetch", status := none } rfl (by decide)
  rw [h0]
  exact ⟨rfl, rfl⟩

/-! ## Contact reconciler: properties -/

theorem foldl_pushUnique (xs : List String) :
    ∀ acc : List String,
      xs.foldl pushUnique acc = acc ++ (firstSeen xs).filter (fun x => !acc.contains x) := by
  induction xs with
  | nil => intro acc; simp [firstSeen]
  | cons x xs ih =>
    intro acc
    rw [List.foldl_cons, ih]
    by_cases hx : x ∈ acc
    · have hc : acc.contains x = true := by simpa using hx
      have h1 : pushUnique acc x = acc := by simp [pushUnique, hx]
      rw [h1]
      simp only [firstSeen, List.filter_cons, hc, List.filter_filter]
      simp only [Bool.not_true, Bool.false_eq_true, ↓reduceIte]
      congr 1
      apply List.filter_congr
      intro y _
      by_cases hy : y ∈ acc
      · simp [hy]
      · have : y ≠ x := fun h => hy (h ▸ hx)
        simp [hy, this]
    · have hc : acc.contains x = false := by simpa using hx
      have h1 : pushUnique acc x = acc ++ [x] := by simp [pushUnique, hx]
      rw [h1]
      simp only [firstSeen, List.filter_cons, hc, List.filter_filter]
      simp only [Bool.not_false, ↓reduceIte, List.append_assoc, List.singleton_append]
      congr 2
      apply List.filter_congr
      intro y _
      by_cases hy : y ∈ acc <;> by_cases hyx : y = x <;> simp [hy, hyx]

theorem contactStep_phones (contacts : List Contact) :
    ∀ acc : List String × List String,
      (contacts.foldl contactStep acc).2 = (shownPhones contacts).foldl pushUnique acc.2 := by
  induction contacts with
  | nil => intro acc; rfl
  | cons c cs ih =>
    intro acc
    rw [List.foldl_cons, ih]
    by_cases h1 : contactShown c <;> by_cases h2 : nonBlank c.phone <;>
      simp [contactStep, shownPhones, h1, h2]

theorem extraStep_foldl (extra : List String) :
    ∀ acc : List String,
      extra.foldl extraStep acc = (extra.filter (fun p => p != "")).foldl pushUnique acc := by
  induction extra with
  | nil => intro acc; rfl
  | cons p ps ih =>
    intro acc
    rw [List.foldl_cons, ih]
    by_cases hp : p = ""
    · simp [extraStep, hp]
    · by_cases hm : p ∈ acc <;> simp [extraStep, pushUnique, hp, hm]

theorem head_filter_eq_find (p : String) (l : List (Option String)) :
    (match (l.filter (fun v => truthy v && v != some p)).map orEmpty with
      | m0 :: _ => m0
      | [] => "") =
      ((l.map orEmpty).find? (fun v => v != "" && v != p)).getD "" := by
  induction l with
  | nil => rfl
  | cons v vs ih =>
    cases v with
    | none => simpa [truthy, orEmpty, List.filter_cons, List.find?_cons] using ih
    | some s =>
      by_cases h1 : s = ""
      · simpa [truthy, orEmpty, List.filter_cons, List.find?_cons, h1] using ih
      · by_cases h2 : s = p
        · simpa [truthy, orEmpty, List.filter_cons, List.find?_cons, h1, h2] using ih
        · simp [truthy, orEmpty, List.filter_cons, List.find?_cons, h1, h2]

theorem assignPhones_single (data : ExtractionResult) (p : String) :
    assignPhones data [p] =
      (p, match ((mainPhoneData data).filter (fun v => truthy v && v != some p)).map orEmpty with
          | m0 :: _ => m0
          | [] => "") := by
  simp only [assignPhones]
  generalize ((mainPhoneData data).filter (fun v => truthy v && v != some p)).map orEmpty = m
  cases m <;> rfl

/-- C1, evaluated on the code: for an extraction with an empty contact list, no extra
phones, and phone = mobile = "0400111222", the pool is empty and the fallback branch of
`populateShipTo` writes the same non-empty number to phone 3 and to phone 4. -/
theorem populateShipTo_fallback_repeats_number :
    allAvailablePhones [] (samePhoneAndMobile.extra_phones.getD []) = [] ∧
      (populateShipTo samePhoneAndMobile).alternate_contact_phone = "0400111222" ∧
      (populateShipTo samePhoneAndMobile).alternate_contact_phone2 = "0400111222" ∧
      (populateShipTo samePhoneAndMobile).pdf_phone3 = "0400111222" ∧
      (populateShipTo samePhoneAndMobile).pdf_phone4 = "0400111222" := by
  decide

/-- C8 as stated fails: a contact that has a phone but no name contributes nothing to
the pool built by the code, while the deduplicated list of every contact phone holds
it. -/
theorem allAvailablePhones_skips_unnamed_contact :
    allAvailablePhones unnamedContactWithPhone [] = [] ∧
      specPhonePool unnamedContactWithPhone [] = ["0400111222"] ∧
      allAvailablePhones unnamedContactWithPhone [] ≠ specPhonePool unnamedContactWithPhone [] := by
  decide

/-- C8 as amended: for every contact list and every list of extra phones, the pool is
the first-seen-order deduplication of the phones of the contacts that pass the name
filter and have a non-blank phone (in list order), followed by the non-empty extra
phones. -/
theorem allAvailablePhones_eq_firstSeen (contacts : List Contact) (extraPhones : List String) :
    allAvailablePhones contacts extraPhones =
      firstSeen (shownPhones contacts ++ extraPhones.filter (fun p => p != "")) := by
  unfold allAvailablePhones
  rw [extraStep_foldl, contactStep_phones, ← List.foldl_append, foldl_pushUnique]
  simp

/-- C9 as stated fails: with the two extra phones and no `alternate_contacts` property,
`populateShipTo` leaves phone 3 and phone 4 empty. -/
theorem populateShipTo_without_contact_list_ignores_extras :
    (populateShipTo extrasWithoutContactList).alternate_contact_phone = "" ∧
      (populateShipTo extrasWithoutContactList).alternate_contact_phone2 = "" ∧
      ¬ ((populateShipTo extrasWithoutContactList).alternate_contact_phone = "0400111222" ∧
        (populateShipTo extrasWithoutContactList).alternate_contact_phone2 = "0400333444") := by
  decide

/-- C9 as amended: whenever `alternate_contacts` is a list (possibly empty) and the pool
built from it and the extra phones has at least two entries, `populateShipTo` sets
phone 3 to the first and phone 4 to the second entry of the pool. -/
theorem populateShipTo_pool_two (data : ExtractionResult) (contacts : List Contact)
    (p0 p1 : String) (rest : List String)
    (hc : data.alternate_contacts = some contacts)
    (hp : allAvailablePhones contacts (data.extra_phones.getD []) = p0 :: p1 :: rest) :
    (populateShipTo data).alternate_contact_phone = p0 ∧
      (populateShipTo data).alternate_contact_phone2 = p1 ∧
      (populateShipTo data).pdf_phone3 = p0 ∧ (populateShipTo data).pdf_phone4 = p1 := by
  simp [populateShipTo, hc, hp, assignPhones]

/-- C9 as amended, at extra phones "0400111222", "0400333444" and an empty contact
list: phone 3 and phone 4 are these two numbers. -/
theorem populateShipTo_pool_two_witness :
    extrasWithEmptyContactList.alternate_contacts = some [] ∧
      allAvailablePhones [] (extrasWithEmptyContactList.extra_phones.getD []) =
        ["0400111222", "0400333444"] ∧
      ((populateShipTo extrasWithEmptyContactList).alternate_contact_phone = "0400111222" ∧
        (populateShipTo extrasWithEmptyContactList).alternate_contact_phone2 = "0400333444" ∧
        (populateShipTo extrasWithEmptyContactList).pdf_phone3 = "0400111222" ∧
        (populateShipTo extrasWithEmptyContactList).pdf_phone4 = "0400333444") :=
  ⟨rfl, by decide,
    populateShipTo_pool_two extrasWithEmptyContactList [] "0400111222" "0400333444" [] rfl (by decide)⟩

/-- C10 as stated fails: with one extra phone and no `alternate_contacts` property the
pool of contact phones and extra phones has exactly one entry, "0400111222", and the
main phone "0400999888" differs from it, yet `populateShipTo` leaves phone 3 and phone 4
empty. -/
theorem populateShipTo_without_contact_list_ignores_single_extra :
    oneExtraWithoutContactList.alternate_contacts = none ∧
      allAvailablePhones (oneExtraWithoutContactList.alternate_contacts.getD [])
          (oneExtraWithoutContactList.extra_phones.getD []) = ["0400111222"] ∧
      specPhonePool (oneExtraWithoutContactList.alternate_contacts.getD [])
          (oneExtraWithoutContactList.extra_phones.getD []) = ["0400111222"] ∧
      (([oneExtraWithoutContactList.phone, oneExtraWithoutContactList.mobile,
            oneExtraWithoutContactList.home_phone, oneExtraWithoutContactList.work_phone].map
          orEmpty).find? (fun v => v != "" && v != "0400111222")).getD "" = "0400999888" ∧
      (populateShipTo oneExtraWithoutContactList).alternate_contact_phone = "" ∧
      (populateShipTo oneExtraWithoutContactList).alternate_contact_phone2 = "" ∧
      ¬ ((populateShipTo oneExtraWithoutContactList).alternate_contact_phone = "0400111222" ∧
        (populateShipTo oneExtraWithoutContactList).alternate_contact_phone2 = "0400999888") :=
  ⟨rfl, by decide⟩

/-- C10 as amended: when `alternate_contacts` is a list (possibly empty) and the pool
built from it and the extra phones has exactly one entry, `populateShipTo` sets phone 3
to it and phone 4 to the first of phone, mobile, home_phone, work_phone that is non-empty
and differs from phone 3, or to the empty string when there is none; and for every
extraction without the `alternate_contacts` property `populateShipTo` leaves phone 3 and
phone 4 empty. -/
theorem populateShipTo_pool_one (data : ExtractionResult) (contacts : List Contact) (p : String)
    (hc : data.alternate_contacts = some contacts)
    (hp : allAvailablePhones contacts (data.extra_phones.getD []) = [p]) :
    ((populateShipTo data).alternate_contact_phone = p ∧
      (populateShipTo data).alternate_contact_phone2 =
        (([data.phone, data.mobile, data.home_phone, data.work_phone].map orEmpty).find?
          (fun v => v != "" && v != p)).getD "") ∧
    ∀ other : ExtractionResult, other.alternate_contacts = none →
      (populateShipTo other).alternate_contact_phone = "" ∧
        (populateShipTo other).alternate_contact_phone2 = "" := by
  refine ⟨?_, ?_⟩
  · have h := head_filter_eq_find p (mainPhoneData data)
    have hm : mainPhoneData data = [data.phone, data.mobile, data.home_phone, data.work_phone] := rfl
    rw [← hm, ← h]
    simp [populateShipTo, hc, hp, assignPhones_single]
  · intro other hn
    simp [populateShipTo, hn]

/-- C10 as amended, at a site contact whose phone equals the main phone, with a
different mobile: phone 3 is the pooled phone and phone 4 is the mobile. -/
theorem populateShipTo_pool_one_witness :
    singlePooledPhone.alternate_contacts =
        some [{ name := some "Sam Lee", type := some "Site Contact", phone := some "0400111222" }] ∧
      allAvailablePhones
          [{ name := some "Sam Lee", type := some "Site Contact", phone := some "0400111222" }]
          (singlePooledPhone.extra_phones.getD []) = ["0400111222"] ∧
      (((populateShipTo singlePooledPhone).alternate_contact_phone = "0400111222" ∧
        (populateShipTo singlePooledPhone).alternate_contact_phone2 =
          (([singlePooledPhone.phone, singlePooledPhone.mobile, singlePooledPhone.home_phone,
              singlePooledPhone.work_phone].map orEmpty).find?
            (fun v => v != "" && v != "0400111222")).getD "") ∧
        ∀ other : ExtractionResult, other.alternate_contacts = none →
          (populateShipTo other).alternate_contact_phone = "" ∧
            (populateShipTo other).alternate_contact_phone2 = "") ∧
      (populateShipTo singlePooledPhone).alternate_contact_phone2 = "0400555666" :=
  ⟨rfl, by decide, populateShipTo_pool_one singlePooledPhone _ "0400111222" rfl (by decide), by decide⟩

/-! ## Create-job click: properties -/

theorem validationClickListener_keeps_id (s : Session) (dom : Dom) :
    (validationClickListener s dom).session.createdCustomerId = s.createdCustomerId := by
  unfold validationClickListener validateDescriptionOfWorks
  cases dom.value "description-of-works" with
  | none => rfl
  | some d => by_cases h : wordCount d < 5 <;> simp [h]

theorem validationClickListener_effects (s : Session) (dom : Dom) :
    (validationClickListener s dom).effects = [] ∨
      (validationClickListener s dom).effects = [notify scopeRequiredMessage "error"] := by
  unfold validationClickListener validateDescriptionOfWorks
  cases dom.value "description-of-works" with
  | none => exact Or.inl rfl
  | some d => by_cases h : wordCount d < 5 <;> simp [h]

theorem createJobHandler_null (s : Session) (dom : Dom) (net : Nat → Attempt)
    (h : s.createdCustomerId = .null) :
    createJobHandler s dom net =
      { session := { s with createJobDisabled := true },
        effects := [notify "Please add the customer to RFMS first." "warning"] } := by
  simp [createJobHandler, h, JsVal.truthy]

theorem createJobClick_null (s : Session) (dom : Dom) (net : Nat → Attempt)
    (h : s.createdCustomerId = .null) :
    (createJobClick s dom net).effects.any Effect.isCreateJobRequest = false ∧
      (createJobClick s dom net).session.createdCustomerId = .null := by
  have hv : (validationClickListener s dom).session.createdCustomerId = .null := by
    rw [validationClickListener_keeps_id, h]
  unfold createJobClick
  simp only [createJobHandler_null _ dom net hv]
  refine ⟨?_, hv⟩
  rcases validationClickListener_effects s dom with he | he <;>
    simp [he, notify, Effect.isCreateJobRequest]

theorem trimChars_eq_nil_iff (cs : List Char) :
    trimChars cs = [] ↔ ∀ c ∈ cs, isJsSpace c = true := by
  unfold trimChars
  rw [List.reverse_eq_nil_iff, List.dropWhile_eq_nil_iff]
  constructor
  · intro h
    have hd : cs.dropWhile isJsSpace = [] := by
      cases hl : cs.dropWhile isJsSpace with
      | nil => rfl
      | cons a l =>
        have ha : isJsSpace a = true := h a (by simp [hl])
        have hn := List.head_dropWhile_not isJsSpace cs (by simp [hl])
        simp [hl, ha] at hn
    exact List.dropWhile_eq_nil_iff.mp hd
  · intro h
    have hd : cs.dropWhile isJsSpace = [] := List.dropWhile_eq_nil_iff.mpr h
    simp [hd]

theorem jsTrim_eq_empty_iff (s : String) :
    jsTrim s = "" ↔ ∀ c ∈ s.data, isJsSpace c = true := by
  rw [← trimChars_eq_nil_iff]
  unfold jsTrim
  constructor
  · intro h
    have := congrArg String.data h
    simpa using this
  · intro h
    rw [h]

theorem missingFields_eq (a b c d : String) :
    missingFields (jsTrim a) (jsTrim b) (jsTrim c) (jsTrim d) = emptyRequired a b c d := by
  unfold missingFields emptyRequired
  by_cases ha : jsTrim a = "" <;> by_cases hb : jsTrim b = "" <;> by_cases hc : jsTrim c = "" <;>
    by_cases hd : jsTrim d = "" <;> simp [ha, hb, hc, hd, List.filter_cons]

theorem emptyRequired_ne_nil (a b c d : String)
    (h : jsTrim a = "" ∨ jsTrim b = "" ∨ jsTrim c = "" ∨ jsTrim d = "") :
    0 < (emptyRequired a b c d).length := by
  unfold emptyRequired
  by_cases ha : jsTrim a = "" <;> by_cases hb : jsTrim b = "" <;> by_cases hc : jsTrim c = "" <;>
    by_cases hd : jsTrim d = "" <;> simp_all [List.filter_cons]

theorem emptyRequired_po (a b c d : String) (h : jsTrim d = "") :
    ∃ pre : String, jsJoin ", " (emptyRequired a b c d) = pre ++ "PO Number" := by
  unfold emptyRequired
  by_cases ha : jsTrim a = "" <;> by_cases hb : jsTrim b = "" <;> by_cases hc : jsTrim c = "" <;>
    simp only [ha, hb, hc, h, List.filter_cons, List.filter_nil, decide_True, decide_False, ↓reduceIte,
      List.map_cons, List.map_nil, jsJoin, Bool.false_eq_true]
  all_goals first
    | exact ⟨"", by decide⟩
    | exact ⟨"Builder Name, ", by decide⟩
    | exact ⟨"Builder ID, ", by decide⟩
    | exact ⟨"Ship To Name, ", by decide⟩
    | exact ⟨"Builder Name, Builder ID, ", by decide⟩
    | exact ⟨"Builder Name, Ship To Name, ", by decide⟩
    | exact ⟨"Builder ID, Ship To Name, ", by decide⟩
    | exact ⟨"Builder Name, Builder ID, Ship To Name, ", by decide⟩

/-- C2, evaluated on the code: with a customer id held, the four required fields filled
and the two-word description "Fix carpet", a click on the create-job button makes the
validator return false, and the create-job request is issued all the same. -/
theorem createJobClick_short_description_sends_request :
    customerCreatedSession.createdCustomerId.truthy = true ∧
      wordCount "Fix carpet" = 2 ∧
      (validateDescriptionOfWorks customerCreatedSession "Fix carpet").1 = false ∧
      (createJobClick customerCreatedSession shortDescriptionForm netJobCreated).effects.any
        Effect.isCreateJobRequest = true := by
  decide

/-- C6: when no customer id is held, a click on the create-job button issues no
create-job request and leaves the customer id absent, for every form and network; this
holds in particular from the session in which the description validator has just
re-enabled the button. -/
theorem createJobClick_without_customer (s : Session) (dom : Dom) (net : Nat → Attempt)
    (h : s.createdCustomerId = .null) :
    ((createJobClick s dom net).effects.any Effect.isCreateJobRequest = false ∧
      (createJobClick s dom net).session.createdCustomerId = .null) ∧
    ∀ description : String, 5 ≤ wordCount description →
      (validateDescriptionOfWorks s description).2.session.createJobDisabled = false ∧
      (createJobClick (validateDescriptionOfWorks s description).2.session dom net).effects.any
          Effect.isCreateJobRequest = false ∧
      (createJobClick (validateDescriptionOfWorks s description).2.session dom net).session.createdCustomerId
          = .null := by
  refine ⟨createJobClick_null s dom net h, ?_⟩
  intro description hw
  have hlt : ¬ wordCount description < 5 := by omega
  have hs : (validateDescriptionOfWorks s description).2.session =
      { s with createJobDisabled := false } := by
    simp [validateDescriptionOfWorks, hlt]
  rw [hs]
  exact ⟨rfl, createJobClick_null _ dom net h⟩

/-- C6 at a session without customer, a fully filled form and a network that would
accept the job. -/
theorem createJobClick_without_customer_witness :
    noCustomerSession.createdCustomerId = .null ∧
    (((createJobClick noCustomerSession shortDescriptionForm netJobCreated).effects.any
        Effect.isCreateJobRequest = false ∧
      (createJobClick noCustomerSession shortDescriptionForm netJobCreated).session.createdCustomerId
        = .null) ∧
    ∀ description : String, 5 ≤ wordCount description →
      (validateDescriptionOfWorks noCustomerSession description).2.session.createJobDisabled = false ∧
      (createJobClick (validateDescriptionOfWorks noCustomerSession description).2.session
          shortDescriptionForm netJobCreated).effects.any Effect.isCreateJobRequest = false ∧
      (createJobClick (validateDescriptionOfWorks noCustomerSession description).2.session
          shortDescriptionForm netJobCreated).session.createdCustomerId = .null) :=
  ⟨rfl, createJobClick_without_customer noCustomerSession shortDescriptionForm netJobCreated rfl⟩

/-- C7: when a customer id is held, the three required elements exist, and at least one
of sold-to name, sold-to id, ship-to name, PO number is empty after trimming, a click on
the create-job button issues no create-job request and shows exactly one warning, which
lists the labels of the empty fields in the order Builder Name, Builder ID, Ship To Name,
PO Number, joined by ", "; a PO number made of whitespace only puts "PO Number" at the
end of that message. -/
theorem createJobClick_missing_fields (s : Session) (dom : Dom) (net : Nat → Attempt)
    (soldToName shipToName poNumber : String)
    (hid : s.createdCustomerId.truthy = true)
    (h1 : dom.value "sold-to-name" = some soldToName)
    (h2 : dom.value "ship-to-name" = some shipToName)
    (h3 : dom.value "po-number" = some poNumber)
    (hempty : jsTrim soldToName = "" ∨ jsTrim (dom.valueOrEmpty "sold-to-rfms-id") = "" ∨
      jsTrim shipToName = "" ∨ jsTrim poNumber = "") :
    (createJobClick s dom net).effects.any Effect.isCreateJobRequest = false ∧
    (createJobClick s dom net).effects.filterMap (Effect.messageOfType "warning") =
      ["Please complete the following required fields: " ++
        jsJoin ", " (emptyRequired soldToName (dom.valueOrEmpty "sold-to-rfms-id") shipToName poNumber)] ∧
    ((∀ c ∈ poNumber.data, isJsSpace c = true) →
      ∃ pre : String, (createJobClick s dom net).effects.filterMap (Effect.messageOfType "warning") =
        [pre ++ "PO Number"]) := by
  have hv : (validationClickListener s dom).session.createdCustomerId.truthy = true := by
    rw [validationClickListener_keeps_id, hid]
  have hidv : (match dom.value "sold-to-rfms-id" with | some v => jsTrim v | none => "") =
      jsTrim (dom.valueOrEmpty "sold-to-rfms-id") := by
    unfold Dom.valueOrEmpty
    cases dom.value "sold-to-rfms-id" <;> rfl
  have hh : createJobHandler (validationClickListener s dom).session dom net =
      { session := (validationClickListener s dom).session,
        effects := [notify ("Please complete the following required fields: " ++
          jsJoin ", " (emptyRequired soldToName (dom.valueOrEmpty "sold-to-rfms-id") shipToName poNumber))
          "warning"] } := by
    unfold createJobHandler
    simp only [hv, h1, h2, h3, hidv, missingFields_eq, Bool.not_true, Bool.false_eq_true, ↓reduceIte]
    simp [emptyRequired_ne_nil _ _ _ _ hempty]
  have hmsg : (createJobClick s dom net).effects.filterMap (Effect.messageOfType "warning") =
      ["Please complete the following required fields: " ++
        jsJoin ", " (emptyRequired soldToName (dom.valueOrEmpty "sold-to-rfms-id") shipToName poNumber)] := by
    simp only [createJobClick, hh]
    rcases validationClickListener_effects s dom with he | he <;>
      simp [he, notify, Effect.messageOfType]
  refine ⟨?_, hmsg, ?_⟩
  · simp only [createJobClick, hh]
    rcases validationClickListener_effects s dom with he | he <;>
      simp [he, notify, Effect.isCreateJobRequest]
  · intro hpo
    obtain ⟨pre, hpre⟩ := emptyRequired_po soldToName (dom.valueOrEmpty "sold-to-rfms-id") shipToName
      poNumber ((jsTrim_eq_empty_iff poNumber).mpr hpo)
    refine ⟨"Please complete the following required fields: " ++ pre, ?_⟩
    rw [hmsg, hpre, String.append_assoc]

/-- C7 at a form whose builder id is empty and whose PO number is two spaces: no
request, and the warning reads "Please complete the following required fields: Builder
ID, PO Number". -/
theorem createJobClick_missing_fields_witness :
    (customerCreatedSession.createdCustomerId.truthy = true ∧
      blankPoForm.value "sold-to-name" = some "Acme Builders" ∧
      blankPoForm.value "ship-to-name" = some "Jane Doe" ∧
      blankPoForm.value "po-number" = some "  " ∧
      jsTrim "  " = "") ∧
    ((createJobClick customerCreatedSession blankPoForm netJobCreated).effects.any
        Effect.isCreateJobRequest = false ∧
      (createJobClick customerCreatedSession blankPoForm netJobCreated).effects.filterMap
          (Effect.messageOfType "warning") =
        ["Please complete the following required fields: " ++
          jsJoin ", " (emptyRequired "Acme Builders" (blankPoForm.valueOrEmpty "sold-to-rfms-id")
            "Jane Doe" "  ")] ∧
      ((∀ c ∈ "  ".data, isJsSpace c = true) →
        ∃ pre : String,
          (createJobClick customerCreatedSession blankPoForm netJobCreated).effects.filterMap
            (Effect.messageOfType "warning") = [pre ++ "PO Number"])) ∧
    "Please complete the following required fields: " ++
        jsJoin ", " (emptyRequired "Acme Builders" (blankPoForm.valueOrEmpty "sold-to-rfms-id")
          "Jane Doe" "  ") =
      "Please complete the following required fields: Builder ID, PO Number" :=
  ⟨⟨by decide, by decide, by decide, by decide, by decide⟩,
    createJobClick_missing_fields customerCreatedSession blankPoForm netJobCreated
      "Acme Builders" "Jane Doe" "  " (by decide) (by decide) (by decide) (by decide)
      (Or.inr (Or.inr (Or.inr (by decide)))),
    by decide⟩

/-! ## Tokens, form updates, phone numbers, contacts and the customer call: properties -/


theorem mk_ne_empty (l : List Char) : (String.mk l != "") = (l != []) := by
  cases l <;> rfl

theorem splitSpaces_filter (cs : List Char) :
    ∀ (cur : List Char) (inSep : Bool), (∀ c ∈ cur, ¬ isJsSpace c = true) → (inSep = true → cur = []) →
      (splitSpaces cs cur inSep).filter (fun w => w != "") =
        ((List.splitOnP isJsSpace (cur.reverse ++ cs)).filter (fun piece => piece != [])).map String.mk := by
  induction cs with
  | nil =>
    intro cur inSep hcur _
    have h1 : List.splitOnP isJsSpace cur.reverse = [cur.reverse] :=
      List.splitOnP_eq_single _ _ (fun x hx => hcur x (List.mem_reverse.mp hx))
    simp only [splitSpaces, List.append_nil, h1, List.filter_cons, List.filter_nil, mk_ne_empty]
    split <;> rfl
  | cons c rest ih =>
    intro cur inSep hcur hsep
    by_cases hc : isJsSpace c = true
    · have h1 : List.splitOnP isJsSpace (cur.reverse ++ c :: rest) =
          cur.reverse :: List.splitOnP isJsSpace rest :=
        List.splitOnP_first _ _ (fun x hx => hcur x (List.mem_reverse.mp hx)) c hc rest
      have ih0 := ih [] true (by simp) (fun _ => rfl)
      simp only [List.reverse_nil, List.nil_append] at ih0
      cases inSep with
      | true =>
        have hnil : cur = [] := hsep rfl
        subst hnil
        simp only [splitSpaces, hc, ↓reduceIte, ih0, List.reverse_nil, List.nil_append,
          List.splitOnP_cons, List.filter_cons]
        simp
      | false =>
        simp only [splitSpaces, hc, ↓reduceIte, h1, List.filter_cons, mk_ne_empty, ih0,
          Bool.false_eq_true]
        split <;> simp
    · have h1 : cur.reverse ++ c :: rest = (c :: cur).reverse ++ rest := by simp
      have := ih (c :: cur) false (by
        intro x hx
        rcases List.mem_cons.mp hx with h | h
        · exact h ▸ hc
        · exact hcur x h) (by simp)
      simp only [splitSpaces, hc, Bool.false_eq_true, ↓reduceIte, h1, this]


theorem splitOnP_spaces (ws : List Char) (h : ∀ c ∈ ws, isJsSpace c = true) :
    (List.splitOnP isJsSpace ws).filter (fun piece => piece != []) = [] := by
  induction ws with
  | nil => rfl
  | cons w ws ih =>
    have hw : isJsSpace w = true := h w (List.mem_cons_self _ _)
    have := ih (fun c hc => h c (List.mem_cons_of_mem _ hc))
    simp [List.splitOnP_cons, hw, List.filter_cons, this]

theorem splitOnP_leading (ws xs : List Char) (h : ∀ c ∈ ws, isJsSpace c = true) :
    (List.splitOnP isJsSpace (ws ++ xs)).filter (fun piece => piece != []) =
      (List.splitOnP isJsSpace xs).filter (fun piece => piece != []) := by
  induction ws with
  | nil => rfl
  | cons w ws ih =>
    have hw : isJsSpace w = true := h w (List.mem_cons_self _ _)
    have := ih (fun c hc => h c (List.mem_cons_of_mem _ hc))
    simp [List.splitOnP_cons, hw, List.filter_cons, this]

theorem splitOnP_trailing (xs ws : List Char) (h : ∀ c ∈ ws, isJsSpace c = true) :
    (List.splitOnP isJsSpace (xs ++ ws)).head (List.splitOnP_ne_nil _ _) =
        (List.splitOnP isJsSpace xs).head (List.splitOnP_ne_nil _ _) ∧
      (List.splitOnP isJsSpace (xs ++ ws)).tail.filter (fun piece => piece != []) =
        (List.splitOnP isJsSpace xs).tail.filter (fun piece => piece != []) := by
  induction xs with
  | nil =>
    cases ws with
    | nil => exact ⟨rfl, rfl⟩
    | cons w ws =>
      have hw : isJsSpace w = true := h w (List.mem_cons_self _ _)
      have := splitOnP_spaces ws (fun c hc => h c (List.mem_cons_of_mem _ hc))
      simp [List.splitOnP_cons, hw, this, List.splitOnP_nil]
  | cons x xs ih =>
    obtain ⟨ih1, ih2⟩ := ih
    by_cases hx : isJsSpace x = true
    · simp only [List.cons_append, List.splitOnP_cons, hx, ↓reduceIte, List.head_cons, List.tail_cons,
        true_and]
      have e1 := List.head_cons_tail _ (List.splitOnP_ne_nil isJsSpace (xs ++ ws))
      have e2 := List.head_cons_tail _ (List.splitOnP_ne_nil isJsSpace xs)
      rw [← e1, ← e2, List.filter_cons, List.filter_cons, ih1, ih2]
    · have e1 := List.head_cons_tail _ (List.splitOnP_ne_nil isJsSpace (xs ++ ws))
      have e2 := List.head_cons_tail _ (List.splitOnP_ne_nil isJsSpace xs)
      simp only [List.cons_append, List.splitOnP_cons, hx, Bool.false_eq_true, ↓reduceIte]
      constructor
      · rw [List.head_modifyHead, List.head_modifyHead, ih1]
      · rw [List.tail_modifyHead, List.tail_modifyHead]
        exact ih2


theorem splitOnP_trailing_filter (xs ws : List Char) (h : ∀ c ∈ ws, isJsSpace c = true) :
    (List.splitOnP isJsSpace (xs ++ ws)).filter (fun piece => piece != []) =
      (List.splitOnP isJsSpace xs).filter (fun piece => piece != []) := by
  obtain ⟨h1, h2⟩ := splitOnP_trailing xs ws h
  have e1 := List.head_cons_tail _ (List.splitOnP_ne_nil isJsSpace (xs ++ ws))
  have e2 := List.head_cons_tail _ (List.splitOnP_ne_nil isJsSpace xs)
  rw [← e1, ← e2, List.filter_cons, List.filter_cons, h1, h2]

theorem trimChars_decompose (cs : List Char) :
    ∃ lead trail : List Char, (∀ c ∈ lead, isJsSpace c = true) ∧ (∀ c ∈ trail, isJsSpace c = true) ∧
      cs = lead ++ (trimChars cs ++ trail) := by
  refine ⟨cs.takeWhile isJsSpace, ((cs.dropWhile isJsSpace).reverse.takeWhile isJsSpace).reverse,
    fun c hc => List.mem_takeWhile_imp hc,
    fun c hc => List.mem_takeWhile_imp (List.mem_reverse.mp hc), ?_⟩
  unfold trimChars
  rw [← List.reverse_append, List.takeWhile_append_dropWhile, List.reverse_reverse,
    List.takeWhile_append_dropWhile]

theorem tokens_trimChars (cs : List Char) :
    (List.splitOnP isJsSpace (trimChars cs)).filter (fun piece => piece != []) =
      (List.splitOnP isJsSpace cs).filter (fun piece => piece != []) := by
  obtain ⟨lead, trail, hl, ht, hcs⟩ := trimChars_decompose cs
  conv_rhs => rw [hcs]
  rw [splitOnP_leading lead _ hl, splitOnP_trailing_filter _ trail ht]

theorem wordCount_eq_tokens (text : String) : wordCount text = (tokens text).length := by
  unfold wordCount tokens
  have h := splitSpaces_filter (jsTrim text).data [] false (by simp) (by simp)
  rw [h]
  simp only [List.reverse_nil, List.nil_append, List.length_map]
  show ((List.splitOnP isJsSpace (trimChars text.data)).filter _).length = _
  rw [tokens_trimChars]

theorem splitSpaces_no_empty (cs : List Char) :
    ∀ (cur : List Char) (inSep : Bool),
      (∀ c, cs.getLast? = some c → ¬ isJsSpace c = true) →
      (cs = [] → cur ≠ []) →
      (inSep = false → cur = [] → ∀ c, cs.head? = some c → ¬ isJsSpace c = true) →
      ∀ piece ∈ splitSpaces cs cur inSep, piece ≠ "" := by
  induction cs with
  | nil =>
    intro cur inSep _ hcur _ piece hp
    simp only [splitSpaces, List.mem_singleton] at hp
    subst hp
    intro h
    have := congrArg String.data h
    simp at this
    exact hcur rfl this
  | cons c rest ih =>
    intro cur inSep hlast _ hhead piece hp
    have hrest_last : ∀ d, rest.getLast? = some d → ¬ isJsSpace d = true := by
      intro d hd
      apply hlast d
      cases rest with
      | nil => simp at hd
      | cons r rs => simpa using hd
    by_cases hc : isJsSpace c = true
    · have hrest_ne : rest ≠ [] := by
        intro h
        subst h
        exact hlast c (by simp) hc
      cases inSep with
      | true =>
        simp only [splitSpaces, hc, ↓reduceIte] at hp
        exact ih cur true hrest_last (fun h => absurd h hrest_ne) (by simp) piece hp
      | false =>
        have hcur : cur ≠ [] := fun h => hhead rfl h c (by simp) hc
        simp only [splitSpaces, hc, ↓reduceIte, Bool.false_eq_true, List.mem_cons] at hp
        rcases hp with hp | hp
        · subst hp
          intro h
          have := congrArg String.data h
          simp at this
          exact hcur this
        · exact ih [] true hrest_last (fun h => absurd h hrest_ne) (by simp) piece hp
    · simp only [splitSpaces, hc, Bool.false_eq_true, ↓reduceIte] at hp
      exact ih (c :: cur) false hrest_last (by simp) (by simp) piece hp

theorem trimChars_last (cs : List Char) :
    ∀ c, (trimChars cs).getLast? = some c → ¬ isJsSpace c = true := by
  intro c hc
  unfold trimChars at hc
  rw [List.getLast?_reverse] at hc
  have hne : ((cs.dropWhile isJsSpace).reverse.dropWhile isJsSpace) ≠ [] := by
    intro h; rw [h] at hc; simp at hc
  have := List.head_dropWhile_not isJsSpace (cs.dropWhile isJsSpace).reverse hne
  rw [List.head?_eq_head hne] at hc
  simp only [Option.some.injEq] at hc
  rw [hc] at this
  simpa using this

theorem getLast_dropWhile_spaces (l : List Char) (h : l.dropWhile isJsSpace ≠ []) :
    (l.dropWhile isJsSpace).getLast? = l.getLast? := by
  conv_rhs => rw [← List.takeWhile_append_dropWhile isJsSpace l]
  rw [List.getLast?_append]
  cases hd : (l.dropWhile isJsSpace).getLast? with
  | none => exact absurd (List.getLast?_eq_none_iff.mp hd) h
  | some x => simp

theorem trimChars_head (cs : List Char) :
    ∀ c, (trimChars cs).head? = some c → ¬ isJsSpace c = true := by
  intro c hc
  unfold trimChars at hc
  rw [List.head?_reverse] at hc
  have hne : ((cs.dropWhile isJsSpace).reverse.dropWhile isJsSpace) ≠ [] := by
    intro h; rw [h] at hc; simp at hc
  rw [getLast_dropWhile_spaces _ hne, List.getLast?_reverse] at hc
  have hne2 : cs.dropWhile isJsSpace ≠ [] := by
    intro h; rw [h] at hc; simp at hc
  have := List.head_dropWhile_not isJsSpace cs hne2
  rw [List.head?_eq_head hne2] at hc
  simp only [Option.some.injEq] at hc
  rw [hc] at this
  simpa using this

theorem splitSpaces_trim_eq_tokens (text : String) (h : tokens text ≠ []) :
    splitSpaces (jsTrim text).data [] false = tokens text := by
  have hf := splitSpaces_filter (jsTrim text).data [] false (by simp) (by simp)
  simp only [List.reverse_nil, List.nil_append] at hf
  have htr : (jsTrim text).data = trimChars text.data := rfl
  rw [htr, tokens_trimChars] at hf
  have hne : trimChars text.data ≠ [] := by
    intro h0
    rw [h0] at hf
    apply h
    unfold tokens
    rw [← hf]
    rfl
  have hall := splitSpaces_no_empty (trimChars text.data) [] false (trimChars_last _)
    (fun h0 => absurd h0 hne) (fun _ _ => trimChars_head _)
  rw [htr]
  unfold tokens
  rw [← hf]
  symm
  apply List.filter_eq_self.mpr
  intro piece hp
  simpa using hall piece hp


theorem lookup_map_set (k v k' : String) (fs : List (String × String)) :
    List.lookup k' (fs.map (fun f => if f.1 = k then (f.1, v) else f)) =
      if k' = k then (List.lookup k' fs).map (fun _ => v) else List.lookup k' fs := by
  induction fs with
  | nil => simp
  | cons f fs ih =>
    obtain ⟨fk, fv⟩ := f
    by_cases hfk : fk = k
    · subst hfk
      by_cases hk : k' = fk
      · subst hk
        simp [List.lookup_cons]
      · simp only [List.map_cons, ↓reduceIte, List.lookup_cons, beq_false_of_ne hk, ih, hk]
    · by_cases hk : k' = fk
      · subst hk
        simp [List.lookup_cons, hfk]
      · simp only [List.map_cons, hfk, ↓reduceIte, List.lookup_cons, beq_false_of_ne hk, ih]

theorem value_setValue (dom : Dom) (k v k' : String) :
    (dom.setValue k v).value k' =
      if k' = k then (dom.value k').map (fun _ => v) else dom.value k' :=
  lookup_map_set k v k' dom.fields

theorem value_setAll (assignments : List (String × String)) :
    ∀ (dom : Dom) (k : String),
      (dom.setAll assignments).value k =
        match (assignments.filter (fun a => a.1 = k)).getLast? with
        | some a => (dom.value k).map (fun _ => a.2)
        | none => dom.value k := by
  induction assignments using List.reverseRecOn with
  | nil => intro dom k; rfl
  | append_singleton as a ih =>
    intro dom k
    have hs : dom.setAll (as ++ [a]) = (dom.setAll as).setValue a.1 a.2 := by
      simp [Dom.setAll, List.foldl_append]
    rw [hs, value_setValue, ih]
    by_cases hk : k = a.1
    · subst hk
      simp only [↓reduceIte, List.filter_append, List.filter_cons, decide_True, List.filter_nil,
        List.getLast?_append, List.getLast?_singleton, Option.or_some]
      cases (List.filter (fun b => decide (b.1 = a.1)) as).getLast? with
      | none => simp
      | some b => simp; rfl
    · have hk2 : ¬ a.1 = k := fun h => hk h.symm
      simp [hk, hk2, List.filter_append, List.filter_cons]


theorem filter_key_nil (l : List (String × String)) (k : String) (h : ∀ a ∈ l, a.1 ≠ k) :
    l.filter (fun a => a.1 = k) = [] := by
  apply List.filter_eq_nil_iff.mpr
  intro a ha
  simpa using h a ha

theorem nameAssignments_keys (data : ExtractionResult) :
    ∀ a ∈ nameAssignments data, a.1 = "ship-to-first-name" ∨ a.1 = "ship-to-last-name" := by
  intro a
  simp only [nameAssignments]
  split_ifs
  · intro ha
    simp only [List.mem_cons, List.mem_singleton, List.not_mem_nil, or_false] at ha
    rcases ha with h | h <;> simp [h]
  · intro ha
    simp only [List.mem_cons, List.mem_singleton, List.not_mem_nil, or_false] at ha
    rcases ha with h | h <;> simp [h]
  · intro ha; simp at ha
  · intro ha; simp at ha

theorem dateAssignments_keys (data : ExtractionResult) :
    ∀ a ∈ dateAssignments data, a.1 = "commencement-date" ∨ a.1 = "completion-date" := by
  intro a ha
  unfold dateAssignments at ha
  split_ifs at ha <;> simp at ha
  all_goals first
    | (rcases ha with h | h <;> simp [h])
    | simp [ha]

theorem bestContactAssignments_keys (data : ExtractionResult) :
    ∀ a ∈ bestContactAssignments data, a.1 = "alternate-contact-name" := by
  intro a ha
  unfold bestContactAssignments at ha
  split at ha
  · split_ifs at ha
    · split at ha <;> simp at ha
      simp [ha]
    · simp at ha
  · simp at ha

theorem extraPhoneAssignments_keys (data : ExtractionResult) :
    ∀ a ∈ extraPhoneAssignments data,
      a.1 = "alternate-contact-phone" ∨ a.1 = "alternate-contact-phone2" := by
  intro a ha
  unfold extraPhoneAssignments at ha
  split at ha
  · split_ifs at ha <;> simp at ha
    all_goals first
      | (rcases ha with h | h <;> simp [h])
      | simp [ha]
  · simp at ha

theorem uploadAssignments_filter_name (data : ExtractionResult) (k : String)
    (hk : k = "ship-to-first-name" ∨ k = "ship-to-last-name") :
    (uploadAssignments data).filter (fun a => a.1 = k) =
      (nameAssignments data).filter (fun a => a.1 = k) := by
  have hd := filter_key_nil (dateAssignments data) k (by
    intro a ha; rcases dateAssignments_keys data a ha with h | h <;> rcases hk with hk | hk <;>
      rw [h, hk] <;> decide)
  have hb := filter_key_nil (bestContactAssignments data) k (by
    intro a ha; have h := bestContactAssignments_keys data a ha
    rcases hk with hk | hk <;> rw [h, hk] <;> decide)
  have he := filter_key_nil (extraPhoneAssignments data) k (by
    intro a ha; rcases extraPhoneAssignments_keys data a ha with h | h <;> rcases hk with hk | hk <;>
      rw [h, hk] <;> decide)
  unfold uploadAssignments
  simp only [List.filter_append, hd, hb, he, List.append_nil]
  rcases hk with hk | hk <;> subst hk <;> simp +decide [List.filter_cons]
theorem mem_firstSeen (l : List String) (x : String) : x ∈ firstSeen l ↔ x ∈ l := by
  induction l with
  | nil => simp [firstSeen]
  | cons a l ih =>
    simp only [firstSeen, List.mem_cons, List.mem_filter, ih]
    by_cases h : x = a <;> simp [h]

theorem jsSetSpread_eq (l : List String) : jsSetSpread l = firstSeen l := by
  unfold jsSetSpread
  rw [foldl_pushUnique]
  simp

theorem mem_foldl_pushUnique (extra base : List String) (x : String) :
    x ∈ extra.foldl pushUnique base ↔ x ∈ base ∨ x ∈ extra := by
  rw [foldl_pushUnique]
  simp only [List.mem_append, List.mem_filter, mem_firstSeen]
  by_cases h : x ∈ base <;> simp [h]

theorem firstSeen_foldl_pushUnique (extra : List String) :
    ∀ base : List String, firstSeen (extra.foldl pushUnique base) = firstSeen (base ++ extra) := by
  induction extra with
  | nil => intro base; simp
  | cons e es ih =>
    intro base
    rw [List.foldl_cons, ih]
    by_cases he : e ∈ base
    · have h1 : pushUnique base e = base := by simp [pushUnique, he]
      rw [h1, ← jsSetSpread_eq, ← jsSetSpread_eq]
      unfold jsSetSpread
      rw [List.foldl_append, List.foldl_append, List.foldl_cons]
      have h2 : pushUnique (List.foldl pushUnique [] base) e = List.foldl pushUnique [] base := by
        have : e ∈ List.foldl pushUnique [] base := (mem_foldl_pushUnique base [] e).mpr (Or.inr he)
        simp [pushUnique, this]
      rw [h2]
    · have h1 : pushUnique base e = base ++ [e] := by simp [pushUnique, he]
      rw [h1]
      simp

theorem firstSeen_dup_head (p : String) (rest : List String) :
    firstSeen (p :: p :: rest) = firstSeen (p :: rest) := by
  simp [firstSeen, List.filter_cons, List.filter_filter]

theorem truthy_eq (v : Option String) : (orEmpty v != "") = truthy v := by
  cases v <;> rfl

theorem presentValue_ne (v : Option String) (x : String) (h : x ∈ presentValue v) : x ≠ "" := by
  unfold presentValue at h
  split at h
  · rename_i ht
    simp only [List.mem_singleton] at h
    subst h
    simpa [← truthy_eq] using ht
  · simp at h

theorem phoneNumbers_eq (data : ExtractionResult) :
    phoneNumbers data = firstSeen (mainAndExtraNumbers data) := by
  have hfold : ∀ (extra base : List String),
      extra.foldl (fun (acc : List String) (p : String) =>
        if p != "" && !acc.contains p then acc ++ [p] else acc) base =
      (extra.filter (fun p => p != "")).foldl pushUnique base := fun extra base =>
    extraStep_foldl extra base
  have hkey : ∀ (base extra : List String), (∀ x ∈ base, x ≠ "") →
      jsSetSpread (((extra.filter (fun p => p != "")).foldl pushUnique base).filter (fun p => p != "")) =
        firstSeen (base ++ extra.filter (fun p => p != "")) := by
    intro base extra hb
    have hid : ((extra.filter (fun p => p != "")).foldl pushUnique base).filter (fun p => p != "") =
        (extra.filter (fun p => p != "")).foldl pushUnique base := by
      apply List.filter_eq_self.mpr
      intro x hx
      rcases (mem_foldl_pushUnique _ _ x).mp hx with h | h
      · simpa using hb x h
      · simpa using (List.mem_filter.mp h).2
    rw [hid, jsSetSpread_eq, firstSeen_foldl_pushUnique]
  have hmain : ((mainPhoneData data).map orEmpty).filter (fun p => p != "") =
      presentValue data.phone ++ presentValue data.mobile ++ presentValue data.home_phone ++
        presentValue data.work_phone := by
    simp only [mainPhoneData, List.map_cons, List.map_nil, List.filter_cons, List.filter_nil,
      truthy_eq, presentValue]
    cases truthy data.phone <;> cases truthy data.mobile <;> cases truthy data.home_phone <;>
      cases truthy data.work_phone <;> rfl
  have hbase : ∀ x ∈ presentValue data.phone ++
      (if truthy data.mobile && data.mobile != data.phone then [orEmpty data.mobile] else []) ++
      presentValue data.home_phone ++ presentValue data.work_phone, x ≠ "" := by
    intro x hx
    simp only [List.mem_append] at hx
    rcases hx with ((hx | hx) | hx) | hx
    · exact presentValue_ne data.phone x hx
    · split at hx
      · rename_i hc
        simp only [Bool.and_eq_true] at hc
        apply presentValue_ne data.mobile x
        simp only [presentValue, hc.1, ↓reduceIte]
        exact hx
      · simp at hx
    · exact presentValue_ne data.home_phone x hx
    · exact presentValue_ne data.work_phone x hx
  have hdup : ∀ rest : List String,
      firstSeen (presentValue data.phone ++
        (if truthy data.mobile && data.mobile != data.phone then [orEmpty data.mobile] else []) ++ rest) =
      firstSeen (presentValue data.phone ++ presentValue data.mobile ++ rest) := by
    intro rest
    by_cases hm : truthy data.mobile = true
    · by_cases he : data.mobile = data.phone
      · have hp : truthy data.phone = true := he ▸ hm
        simp only [presentValue, hm, hp, he, ↓reduceIte, bne_self_eq_false, Bool.and_false,
          Bool.false_eq_true, List.append_nil, List.singleton_append, List.cons_append, List.nil_append]
        exact (firstSeen_dup_head _ _).symm
      · have : (data.mobile != data.phone) = true := by simpa using he
        simp only [presentValue, hm, this, Bool.and_self, ↓reduceIte]
    · simp only [presentValue, hm, Bool.false_eq_true, ↓reduceIte, Bool.false_and]
  have hshape : phoneNumbers data = jsSetSpread (((data.extra_phones.getD []).foldl
      (fun (acc : List String) (p : String) => if p != "" && !acc.contains p then acc ++ [p] else acc)
      (presentValue data.phone ++
        (if truthy data.mobile && data.mobile != data.phone then [orEmpty data.mobile] else []) ++
        presentValue data.home_phone ++ presentValue data.work_phone)).filter (fun p => p != "")) := by
    simp only [phoneNumbers, presentValue]
    cases data.extra_phones <;>
      cases truthy data.phone <;> cases (truthy data.mobile && data.mobile != data.phone) <;>
      cases truthy data.home_phone <;> cases truthy data.work_phone <;> rfl
  rw [hshape, hfold, hkey _ _ hbase]
  unfold mainAndExtraNumbers
  rw [List.filter_append, hmain]
  simp only [List.append_assoc]
  have := hdup (presentValue data.home_phone ++ (presentValue data.work_phone ++
    (data.extra_phones.getD []).filter (fun p => p != "")))
  simpa only [List.append_assoc] using this
theorem nameAssignments_of_tokens (data : ExtractionResult) (name first : String) (rest : List String)
    (hn : data.customer_name = some name) (ht : tokens name = first :: rest) :
    nameAssignments data =
      if rest ≠ [] then [("ship-to-first-name", first), ("ship-to-last-name", jsJoin " " rest)]
      else [("ship-to-first-name", ""), ("ship-to-last-name", first)] := by
  have hne : tokens name ≠ [] := by rw [ht]; simp
  have hparts := splitSpaces_trim_eq_tokens name hne
  have htruthy : truthy (some name) = true := by
    by_cases h0 : name = ""
    · subst h0; exact absurd rfl hne
    · simp [truthy, h0]
  simp only [nameAssignments, hn, htruthy, ↓reduceIte, orEmpty, hparts, ht]
  cases rest with
  | nil => simp [atOrEmpty]
  | cons r rs => simp [atOrEmpty]

/-- C14: for a customer name with tokens `first :: rest`, the upload handler sets the
first name to `first` and the last name to the remaining tokens joined by single spaces
when there are at least two tokens, and sets the first name to the empty string and the
last name to the only token when there is exactly one. -/
theorem upload_name_split (dom : Dom) (data : ExtractionResult) (name first oldFirst oldLast : String)
    (rest : List String)
    (hn : data.customer_name = some name) (ht : tokens name = first :: rest)
    (hf : dom.value "ship-to-first-name" = some oldFirst)
    (hl : dom.value "ship-to-last-name" = some oldLast) :
    (rest ≠ [] →
      (populateFromUpload dom data).value "ship-to-first-name" = some first ∧
      (populateFromUpload dom data).value "ship-to-last-name" = some (jsJoin " " rest)) ∧
    (rest = [] →
      (populateFromUpload dom data).value "ship-to-first-name" = some "" ∧
      (populateFromUpload dom data).value "ship-to-last-name" = some first) := by
  have hna := nameAssignments_of_tokens data name first rest hn ht
  have h1 := value_setAll (uploadAssignments data) dom "ship-to-first-name"
  have h2 := value_setAll (uploadAssignments data) dom "ship-to-last-name"
  rw [uploadAssignments_filter_name data _ (Or.inl rfl), hna, hf] at h1
  rw [uploadAssignments_filter_name data _ (Or.inr rfl), hna, hl] at h2
  unfold populateFromUpload
  constructor
  · intro hr
    rw [h1, h2]
    simp +decide [hr, List.filter_cons]
  · intro hr
    rw [h1, h2]
    simp +decide [hr, List.filter_cons]

/-- C14 at "Jane Doe" (Jane / Doe) and "Prince" (empty / Prince). -/
theorem upload_name_split_witness :
    (tokens "Jane Doe" = ["Jane", "Doe"] ∧ tokens "Prince" = ["Prince"]) ∧
    ((populateFromUpload formAfterJaneDoe { customer_name := some "Jane Doe" }).value
        "ship-to-first-name" = some "Jane" ∧
      (populateFromUpload formAfterJaneDoe { customer_name := some "Jane Doe" }).value
        "ship-to-last-name" = some (jsJoin " " ["Doe"])) ∧
    ((populateFromUpload formAfterJaneDoe { customer_name := some "Prince" }).value
        "ship-to-first-name" = some "" ∧
      (populateFromUpload formAfterJaneDoe { customer_name := some "Prince" }).value
        "ship-to-last-name" = some "Prince") ∧
    (tokens "  Jane  Mary\tDoe " = ["Jane", "Mary", "Doe"] ∧
      (populateFromUpload formAfterJaneDoe janeMaryDoe).value "ship-to-first-name" = some "Jane" ∧
      (populateFromUpload formAfterJaneDoe janeMaryDoe).value "ship-to-last-name" = some "Mary Doe") :=
  ⟨⟨by decide, by decide⟩,
    (upload_name_split formAfterJaneDoe { customer_name := some "Jane Doe" } "Jane Doe" "Jane" "Jane"
      "Doe" ["Doe"] rfl (by decide) (by decide) (by decide)).1 (by decide),
    (upload_name_split formAfterJaneDoe { customer_name := some "Prince" } "Prince" "Prince" "Jane"
      "Doe" [] rfl (by decide) (by decide) (by decide)).2 rfl,
    by decide⟩

/-- C15, evaluated on the code: on a form that holds "Jane" / "Doe" from an earlier
upload, an extraction without customer name empties the ship-to name but leaves the
first name "Jane" and the last name "Doe". -/
theorem upload_without_name_keeps_names :
    noCustomerName.customer_name = none ∧
      formAfterJaneDoe.value "ship-to-first-name" = some "Jane" ∧
      (populateFromUpload formAfterJaneDoe noCustomerName).value "ship-to-name" = some "" ∧
      (populateFromUpload formAfterJaneDoe noCustomerName).value "ship-to-first-name" = some "Jane" ∧
      (populateFromUpload formAfterJaneDoe noCustomerName).value "ship-to-last-name" = some "Doe" := by
  decide
theorem pool_mem_ne_empty (contacts : List Contact) (extraPhones : List String) (x : String)
    (hx : x ∈ allAvailablePhones contacts extraPhones) : x ≠ "" := by
  unfold allAvailablePhones at hx
  rw [extraStep_foldl, contactStep_phones] at hx
  rcases (mem_foldl_pushUnique _ _ x).mp hx with h | h
  · rcases (mem_foldl_pushUnique _ _ x).mp h with h' | h'
    · simp at h'
    · unfold shownPhones at h'
      obtain ⟨c, hc, rfl⟩ := List.mem_map.mp h'
      have hnb : nonBlank c.phone = true := by
        have := (List.mem_filter.mp hc).2
        simp only [Bool.and_eq_true] at this
        exact this.2
      cases hph : c.phone with
      | none => simp [hph, nonBlank] at hnb
      | some p =>
        simp only [hph, nonBlank, Bool.and_eq_true, bne_iff_ne, ne_eq] at hnb
        simpa [orEmpty] using hnb.1
  · simpa using (List.mem_filter.mp h).2

theorem find_getD_ne (p : String) (hp : p ≠ "") (l : List String) :
    ((l.find? (fun v => v != "" && v != p)).getD "") ≠ p := by
  cases h : l.find? (fun v => v != "" && v != p) with
  | none => simpa using fun h' => hp h'.symm
  | some v =>
    have := List.find?_some h
    simp only [Bool.and_eq_true, bne_iff_ne, ne_eq] at this
    simpa using this.2

/-- C11 as amended: when the pool built from the contact list and the extra phones is
the single phone `data.phone`, `populateShipTo` sets phone 3 to it; phone 4 is
`data.mobile` when mobile is present and different from that phone, and otherwise the
first of home_phone, work_phone that is non-empty and different from that phone, or the
empty string when there is none; phone 4 never equals phone 3. -/
theorem populateShipTo_pool_is_main_phone (data : ExtractionResult) (contacts : List Contact)
    (p : String)
    (hc : data.alternate_contacts = some contacts)
    (hp : allAvailablePhones contacts (data.extra_phones.getD []) = [p])
    (hphone : data.phone = some p) :
    (populateShipTo data).alternate_contact_phone = p ∧
    (truthy data.mobile = true → data.mobile ≠ some p →
      (populateShipTo data).alternate_contact_phone2 = orEmpty data.mobile) ∧
    (¬ (truthy data.mobile = true ∧ data.mobile ≠ some p) →
      (populateShipTo data).alternate_contact_phone2 =
        (([data.home_phone, data.work_phone].map orEmpty).find?
          (fun v => v != "" && v != p)).getD "") ∧
    (populateShipTo data).alternate_contact_phone2 ≠ (populateShipTo data).alternate_contact_phone := by
  have hne : p ≠ "" := pool_mem_ne_empty contacts _ p (by rw [hp]; simp)
  have h := head_filter_eq_find p (mainPhoneData data)
  have h3 : (populateShipTo data).alternate_contact_phone = p := by
    simp [populateShipTo, hc, hp, assignPhones_single]
  have h4 : (populateShipTo data).alternate_contact_phone2 =
      (((mainPhoneData data).map orEmpty).find? (fun v => v != "" && v != p)).getD "" := by
    rw [← h]
    simp [populateShipTo, hc, hp, assignPhones_single]
  refine ⟨h3, ?_, ?_, ?_⟩
  · intro hm hmp
    rw [h4]
    cases hmo : data.mobile with
    | none => simp [hmo, truthy] at hm
    | some m =>
      have hm1 : m ≠ "" := by simpa [hmo, truthy] using hm
      have hm2 : m ≠ p := by simpa [hmo] using hmp
      simp [mainPhoneData, hphone, hmo, orEmpty, List.find?_cons, hm1, hm2]
  · intro hnot
    rw [h4]
    have hskip : (orEmpty data.mobile != "" && orEmpty data.mobile != p) = false := by
      cases hmo : data.mobile with
      | none => simp [orEmpty]
      | some m =>
        by_cases hm1 : m = ""
        · simp [orEmpty, hm1]
        · by_cases hm2 : m = p
          · simp [orEmpty, hm2]
          · exact absurd ⟨by simp [hmo, truthy, hm1], by simpa [hmo] using hm2⟩ hnot
    simp only [mainPhoneData, hphone, List.map_cons, List.map_nil, orEmpty, List.find?_cons]
    simp only [orEmpty] at hskip
    simp [hskip]
  · rw [h3, h4]
    exact find_getD_ne p hne _

/-- C11 as amended, at a site contact whose phone is the main phone, with a different
mobile. -/
theorem populateShipTo_pool_is_main_phone_witness :
    (singlePooledPhone.alternate_contacts =
        some [{ name := some "Sam Lee", type := some "Site Contact", phone := some "0400111222" }] ∧
      singlePooledPhone.phone = some "0400111222") ∧
    ((populateShipTo singlePooledPhone).alternate_contact_phone = "0400111222" ∧
    (truthy singlePooledPhone.mobile = true → singlePooledPhone.mobile ≠ some "0400111222" →
      (populateShipTo singlePooledPhone).alternate_contact_phone2 = orEmpty singlePooledPhone.mobile) ∧
    (¬ (truthy singlePooledPhone.mobile = true ∧ singlePooledPhone.mobile ≠ some "0400111222") →
      (populateShipTo singlePooledPhone).alternate_contact_phone2 =
        (([singlePooledPhone.home_phone, singlePooledPhone.work_phone].map orEmpty).find?
          (fun v => v != "" && v != "0400111222")).getD "") ∧
    (populateShipTo singlePooledPhone).alternate_contact_phone2 ≠
      (populateShipTo singlePooledPhone).alternate_contact_phone) :=
  ⟨⟨rfl, rfl⟩, populateShipTo_pool_is_main_phone singlePooledPhone _ "0400111222" rfl (by decide) rfl⟩

/-- C11 as stated fails: with the single pooled phone equal to `data.phone`, no mobile
and a home phone, phone 4 is the home phone and not the empty string. -/
theorem populateShipTo_single_pool_uses_home_phone :
    allAvailablePhones
        [{ name := some "Sam Lee", type := some "Site Contact", phone := some "0400111222" }]
        (pooledPhoneWithHomePhone.extra_phones.getD []) = ["0400111222"] ∧
      pooledPhoneWithHomePhone.phone = some "0400111222" ∧
      pooledPhoneWithHomePhone.mobile = none ∧
      (populateShipTo pooledPhoneWithHomePhone).alternate_contact_phone2 = "0733334444" ∧
      (populateShipTo pooledPhoneWithHomePhone).alternate_contact_phone2 ≠ "" := by
  decide

/-- C12, evaluated on the code: with an empty pool, phone = mobile = "0400111222" and
work_phone = "0733334444", the first two distinct non-empty values are "0400111222" and
"0733334444", but `populateShipTo` writes "0400111222" to phone 3 and to phone 4. -/
theorem populateShipTo_fallback_skips_work_phone :
    allAvailablePhones [] (samePhoneAndMobileWithWork.extra_phones.getD []) = [] ∧
      firstSeen (((mainPhoneData samePhoneAndMobileWithWork).map orEmpty).filter (fun p => p != "")) =
        ["0400111222", "0733334444"] ∧
      (populateShipTo samePhoneAndMobileWithWork).alternate_contact_phone = "0400111222" ∧
      (populateShipTo samePhoneAndMobileWithWork).alternate_contact_phone2 = "0400111222" := by
  decide
theorem uploadAssignments_filter_phone (data : ExtractionResult) :
    (uploadAssignments data).filter (fun a => a.1 = "ship-to-phone1") =
        [("ship-to-phone1", orEmpty data.phone)] ∧
      (uploadAssignments data).filter (fun a => a.1 = "ship-to-phone2") =
        [("ship-to-phone2", orElse data.mobile data.work_phone)] := by
  have key : ∀ k : String, k = "ship-to-phone1" ∨ k = "ship-to-phone2" →
      (nameAssignments data).filter (fun a => a.1 = k) = [] ∧
      (dateAssignments data).filter (fun a => a.1 = k) = [] ∧
      (bestContactAssignments data).filter (fun a => a.1 = k) = [] ∧
      (extraPhoneAssignments data).filter (fun a => a.1 = k) = [] := by
    intro k hk
    refine ⟨filter_key_nil _ k ?_, filter_key_nil _ k ?_, filter_key_nil _ k ?_, filter_key_nil _ k ?_⟩
    · intro a ha; rcases nameAssignments_keys data a ha with h | h <;> rcases hk with hk | hk <;>
        rw [h, hk] <;> decide
    · intro a ha; rcases dateAssignments_keys data a ha with h | h <;> rcases hk with hk | hk <;>
        rw [h, hk] <;> decide
    · intro a ha; have h := bestContactAssignments_keys data a ha
      rcases hk with hk | hk <;> rw [h, hk] <;> decide
    · intro a ha; rcases extraPhoneAssignments_keys data a ha with h | h <;> rcases hk with hk | hk <;>
        rw [h, hk] <;> decide
  obtain ⟨n1, d1, b1, e1⟩ := key "ship-to-phone1" (Or.inl rfl)
  obtain ⟨n2, d2, b2, e2⟩ := key "ship-to-phone2" (Or.inr rfl)
  unfold uploadAssignments
  constructor
  · simp only [List.filter_append, n1, d1, b1, e1, List.append_nil]
    simp +decide [List.filter_cons]
  · simp only [List.filter_append, n2, d2, b2, e2, List.append_nil]
    simp +decide [List.filter_cons]

theorem orElse_eq (a b : Option String) :
    orElse a b = if truthy a then orEmpty a else orEmpty b := by
  unfold orElse
  cases b with
  | none => simp [truthy, orEmpty]
  | some s => by_cases h : s = "" <;> simp [truthy, orEmpty, h]

/-- C13 as amended: the upload handler sets phone 1 to `data.phone` (empty when absent)
and phone 2 to `data.mobile` when mobile is present, whether or not it differs from
phone, and to `data.work_phone` otherwise; `populateShipTo` sets phone 1 and phone 2 to
the first and second entry (empty when missing) of the first-seen-order deduplication of
the non-empty values of phone, mobile, home_phone, work_phone and the extra phones. -/
theorem phone_one_and_two (dom : Dom) (data : ExtractionResult) :
    ((populateFromUpload dom data).value "ship-to-phone1" =
        (dom.value "ship-to-phone1").map (fun _ => orEmpty data.phone) ∧
      (populateFromUpload dom data).value "ship-to-phone2" =
        (dom.value "ship-to-phone2").map
          (fun _ => if truthy data.mobile then orEmpty data.mobile else orEmpty data.work_phone)) ∧
    ((populateShipTo data).ship_to_phone1 = atOrEmpty (firstSeen (mainAndExtraNumbers data)) 0 ∧
      (populateShipTo data).ship_to_phone2 = atOrEmpty (firstSeen (mainAndExtraNumbers data)) 1) := by
  obtain ⟨f1, f2⟩ := uploadAssignments_filter_phone data
  refine ⟨⟨?_, ?_⟩, ?_, ?_⟩
  · unfold populateFromUpload
    rw [value_setAll, f1]
    rfl
  · unfold populateFromUpload
    rw [value_setAll, f2, ← orElse_eq]
    rfl
  · simp only [populateShipTo, phoneNumbers_eq]
  · simp only [populateShipTo, phoneNumbers_eq]

/-- C13 as stated fails on both paths: when mobile equals phone the upload handler
still writes it to phone 2 although a work phone is there, and `populateShipTo` writes
the mobile to phone 1 when there is no phone. -/
theorem phone_two_repeats_and_mobile_promoted :
    (populateFromUpload { fields := [("ship-to-phone1", ""), ("ship-to-phone2", "")] }
        samePhoneAndMobileWithWork).value "ship-to-phone2" = some "0400111222" ∧
      samePhoneAndMobileWithWork.work_phone = some "0733334444" ∧
      (populateShipTo mobileOnly).ship_to_phone1 = "0400555666" ∧
      mobileOnly.phone = none := by
  decide

theorem contactStep_texts (contacts : List Contact) :
    ∀ acc : List String × List String,
      (contacts.foldl contactStep acc).1 = acc.1 ++ (contacts.filter contactShown).map contactLine := by
  induction contacts with
  | nil => intro acc; simp
  | cons c cs ih =>
    intro acc
    rw [List.foldl_cons, ih]
    by_cases h1 : contactShown c = true
    · simp [contactStep, h1, List.filter_cons]
    · simp [contactStep, h1, List.filter_cons]

theorem summaryOf_nonBlank (contacts : List Contact) :
    summaryOf nonBlank contacts = jsJoin "; " ((contacts.filter contactShown).map contactLine) := by
  unfold summaryOf
  congr 1
  have hf : (fun (c : Contact) => nonBlank c.name && c.name != some "Email") = contactShown := by
    funext c; rfl
  rw [hf]
  apply List.map_congr_left
  intro c _
  unfold contactLine
  by_cases hp : nonBlank c.phone = true <;> by_cases he : nonBlank c.email = true <;>
    simp only [hp, he, ↓reduceIte, Bool.false_eq_true, String.append_assoc, String.append_empty]

/-- C16 as amended: when `alternate_contacts` is a list, the best-contact summary written
by `populateShipTo` is the "; "-join, in list order, of one segment per contact whose
name is not blank (not empty after trimming) and not "Email"; the segment is
"type: name" with "Contact" for a missing type, followed by " (phone)" when the phone is
not blank and by " - email" when the email is not blank. -/
theorem populateShipTo_summary (data : ExtractionResult) (contacts : List Contact)
    (hc : data.alternate_contacts = some contacts) :
    (populateShipTo data).alternate_contact_name = summaryOf nonBlank contacts := by
  rw [summaryOf_nonBlank]
  simp only [populateShipTo, hc, contactTexts, contactStep_texts, List.nil_append]

/-- C16 as stated fails: a contact whose name is two spaces has a non-empty name other
than "Email", yet it contributes nothing to the summary written by the code. -/
theorem populateShipTo_summary_drops_blank_name :
    jsJoin "; " (contactTexts blankNamedContact) = "" ∧
      (populateShipTo { alternate_contacts := some blankNamedContact }).alternate_contact_name = "" ∧
      specSummary blankNamedContact = "Site Contact:   " := by
  decide

/-- C16 as amended, at three contacts of which the second is named "Email". -/
theorem populateShipTo_summary_witness :
    twoNamedContacts.alternate_contacts = some
      [{ name := some "Bob Ray", type := some "Site Contact", phone := some "0400111222",
         email := some "bob@example.com" },
       { name := some "Email", phone := some "0400999888" },
       { name := some "Al Kent" }] ∧
    (populateShipTo twoNamedContacts).alternate_contact_name = summaryOf nonBlank
      [{ name := some "Bob Ray", type := some "Site Contact", phone := some "0400111222",
         email := some "bob@example.com" },
       { name := some "Email", phone := some "0400999888" },
       { name := some "Al Kent" }] ∧
    (populateShipTo twoNamedContacts).alternate_contact_name =
      "Site Contact: Bob Ray (0400111222) - bob@example.com; Contact: Al Kent" :=
  ⟨rfl, populateShipTo_summary twoNamedContacts _ rfl, by decide⟩

theorem labelChars_facts :
    ∀ l ∈ labelChars, lowerChar l = [l.toLower] ∧ foldCase l = l.toLower ∧
      l.toLower ≠ Char.ofNat 0x307 ∧ l.toLower ≠ Char.ofNat 0x130 := by
  decide

theorem lowerChar_cases (c : Char) :
    (c = Char.ofNat 0x212A ∧ lowerChar c = ['k'] ∧ foldCase c = 'k') ∨
    (c = Char.ofNat 0x130 ∧ lowerChar c = ['i', Char.ofNat 0x307] ∧ foldCase c = Char.ofNat 0x130) ∨
    (lowerChar c = [c.toLower] ∧ foldCase c = c.toLower) := by
  by_cases h1 : c.toNat = 0x212A
  · have hc : c = Char.ofNat 0x212A := by rw [← h1, Char.ofNat_toNat]
    subst hc
    exact Or.inl ⟨rfl, by decide, by decide⟩
  · by_cases h2 : c.toNat = 0x130
    · have hc : c = Char.ofNat 0x130 := by rw [← h2, Char.ofNat_toNat]
      subst hc
      exact Or.inr (Or.inl ⟨rfl, by decide, by decide⟩)
    · refine Or.inr (Or.inr ⟨by simp [lowerChar, h1, h2], ?_⟩)
      have hne : c ≠ Char.ofNat 0x212A := by
        intro h
        apply h1
        rw [h]
        decide
      simp [foldCase, hne]

theorem isPrefixOf_lowered : ∀ (label text : List Char),
    (∀ l ∈ label, l ∈ labelChars) → (∀ l, label.getLast? = some l → l.toLower ≠ 'i') →
    (label.map Char.toLower).isPrefixOf (text.map lowerChar).flatten =
      matchesIgnoringCase label text := by
  intro label
  induction label with
  | nil => intro text _ _; simp [matchesIgnoringCase]
  | cons l ls ih =>
    intro text hpl hlast
    have hl := labelChars_facts l (hpl l (List.mem_cons_self _ _))
    have hpl2 : ∀ x ∈ ls, x ∈ labelChars := fun x hx => hpl x (List.mem_cons_of_mem _ hx)
    have hlast2 : ∀ x, ls.getLast? = some x → x.toLower ≠ 'i' := by
      intro x hx
      apply hlast x
      cases ls with
      | nil => simp at hx
      | cons y ys => simpa [List.getLast?_cons_cons] using hx
    cases text with
    | nil => simp [matchesIgnoringCase]
    | cons c cs =>
      rcases lowerChar_cases c with ⟨_, h1, h2⟩ | ⟨_, h1, h2⟩ | ⟨h1, h2⟩
      · simp only [List.map_cons, List.flatten_cons, h1, matchesIgnoringCase, h2, hl.2.1,
          List.cons_append, List.nil_append, List.isPrefixOf]
        rw [ih cs hpl2 hlast2]
        congr 1
        exact Bool.beq_comm
      · simp only [List.map_cons, List.flatten_cons, h1, matchesIgnoringCase, h2, hl.2.1,
          List.cons_append, List.nil_append, List.isPrefixOf]
        have hf : (Char.ofNat 0x130 == l.toLower) = false := by
          simpa using fun h => hl.2.2.2 h.symm
        rw [hf, Bool.false_and]
        cases ls with
        | nil =>
          have : l.toLower ≠ 'i' := hlast l rfl
          simp [this]
        | cons y ys =>
          have hy := labelChars_facts y (hpl2 y (List.mem_cons_self _ _))
          have : (y.toLower == Char.ofNat 0x307) = false := by simpa using hy.2.2.1
          simp [List.isPrefixOf, this]
      · simp only [List.map_cons, List.flatten_cons, h1, matchesIgnoringCase, h2, hl.2.1,
          List.cons_append, List.nil_append, List.isPrefixOf]
        rw [ih cs hpl2 hlast2]
        congr 1
        exact Bool.beq_comm

theorem includesChars_lowered (label : List Char) (hne : label ≠ [])
    (hpl : ∀ l ∈ label, l ∈ labelChars) (hlast : ∀ l, label.getLast? = some l → l.toLower ≠ 'i') :
    ∀ text : List Char,
      includesChars (text.map lowerChar).flatten (label.map Char.toLower) =
        text.tails.any (matchesIgnoringCase label) := by
  intro text
  induction text with
  | nil =>
    cases label with
    | nil => exact absurd rfl hne
    | cons l ls => simp [includesChars, matchesIgnoringCase]
  | cons c cs ih =>
    have hp := isPrefixOf_lowered label (c :: cs) hpl hlast
    rw [List.tails_cons, List.any_cons, ← ih, ← hp]
    rcases lowerChar_cases c with ⟨_, h1, _⟩ | ⟨_, h1, _⟩ | ⟨h1, _⟩
    · simp only [List.map_cons, List.flatten_cons, h1, List.cons_append, List.nil_append,
        includesChars]
    · simp only [List.map_cons, List.flatten_cons, h1, List.cons_append, List.nil_append,
        includesChars]
      cases label with
      | nil => exact absurd rfl hne
      | cons l ls =>
        have hl := labelChars_facts l (hpl l (List.mem_cons_self _ _))
        have : (l.toLower == Char.ofNat 0x307) = false := by simpa using hl.2.2.1
        simp [List.isPrefixOf, this]
    · simp only [List.map_cons, List.flatten_cons, h1, List.cons_append, List.nil_append,
        includesChars]

theorem jsToLowerCase_label (label : List Char) (hpl : ∀ l ∈ label, l ∈ labelChars) :
    (label.map lowerChar).flatten = label.map Char.toLower := by
  induction label with
  | nil => rfl
  | cons l ls ih =>
    have hl := labelChars_facts l (hpl l (List.mem_cons_self _ _))
    simp [hl.1, ih (fun x hx => hpl x (List.mem_cons_of_mem _ hx))]

theorem jsIncludes_lowered (text label : String) (hne : label.data ≠ [])
    (hpl : ∀ l ∈ label.data, l ∈ labelChars)
    (hlast : ∀ l, label.data.getLast? = some l → l.toLower ≠ 'i') :
    jsIncludes (jsToLowerCase text) (jsToLowerCase label) = containsIgnoringCase text label := by
  simp only [jsIncludes, jsToLowerCase, containsIgnoringCase]
  rw [jsToLowerCase_label label.data hpl]
  exact includesChars_lowered label.data hne hpl hlast text.data

theorem priorities_plain : ∀ label ∈ priorities,
    label.data ≠ [] ∧ (∀ l ∈ label.data, l ∈ labelChars) ∧
      (∀ l, label.data.getLast? = some l → l.toLower ≠ 'i') := by
  intro label h
  simp only [priorities, List.mem_cons, List.mem_singleton, List.not_mem_nil, or_false] at h
  rcases h with h | h | h | h | h <;> subst h <;> refine ⟨by decide, by decide, ?_⟩ <;>
    intro l hl <;> simp at hl <;> subst hl <;> decide

theorem typeIncludes_eq_typeContainsLabel (label : String) (h : label ∈ priorities) :
    typeIncludes label = typeContainsLabel label := by
  obtain ⟨hne, hpl, hlast⟩ := priorities_plain label h
  funext c
  unfold typeIncludes typeContainsLabel
  cases ht : c.type with
  | none => simp [truthy]
  | some t =>
    by_cases he : t = ""
    · subst he
      cases hd : label.data with
      | nil => exact absurd hd hne
      | cons l ls => simp [truthy, containsIgnoringCase, matchesIgnoringCase, hd]
    · have hj := jsIncludes_lowered t label hne hpl hlast
      simp [truthy, orEmpty, he, hj]

theorem findByPriority_spec (contacts : List Contact) (fallback : Option Contact)
    (q : String → Contact → Bool) :
    ∀ labels : List String, (∀ label ∈ labels, typeIncludes label = q label) →
      (match findByPriority contacts labels with
        | some c => some c
        | none => fallback) =
      (match labels.find? (fun label => contacts.any (q label)) with
        | some label => contacts.find? (q label)
        | none => fallback) := by
  intro labels
  induction labels with
  | nil => intro _; rfl
  | cons l ls ih =>
    intro hq
    have hl : typeIncludes l = q l := hq l (List.mem_cons_self _ _)
    simp only [findByPriority, List.find?_cons, hl]
    cases hf : contacts.find? (q l) with
    | some c =>
      have hany : contacts.any (q l) = true := by
        rw [List.any_eq_true]
        exact ⟨c, List.mem_of_find?_eq_some hf, List.find?_some hf⟩
      simp [hany, hf]
    | none =>
      have hany : contacts.any (q l) = false := by
        rw [List.any_eq_false]
        intro x hx
        have := List.find?_eq_none.mp hf x hx
        simpa using this
      simp only [hany]
      exact ih (fun label hlabel => hq label (List.mem_cons_of_mem _ hlabel))

/-- C17: the contact chosen by the upload handler is, for the highest-ranked label in
the order Decision Maker, Best Contact, Site Contact, Authorised Contact, Occupant
Contact that the type of some contact contains case-insensitively, the first contact in
list order whose type contains it, and the first contact of the list when no type
contains a label; the code's test on the lower-cased strings is case-insensitive
containment for each ranked label; a Decision Maker is chosen over a Site Contact in
either list order, also when the types are written in another case or carry more text
than the label. -/
theorem bestContact_by_priority (contacts : List Contact) (a b : Contact) :
    bestContact contacts = specPrimaryContact contacts ∧
    priorities = rankedLabels ∧
    (∀ label ∈ rankedLabels, ∀ c : Contact, typeIncludes label c = typeContainsLabel label c) ∧
    bestContact [{ a with type := some "Site Contact" }, { b with type := some "Decision Maker" }] =
      some { b with type := some "Decision Maker" } ∧
    bestContact [{ b with type := some "Decision Maker" }, { a with type := some "Site Contact" }] =
      some { b with type := some "Decision Maker" } ∧
    bestContact [{ a with type := some "site CONTACT" },
        { b with type := some "Owner / DECISION maker" }] =
      some { b with type := some "Owner / DECISION maker" } ∧
    bestContact [{ b with type := some "Owner / DECISION maker" },
        { a with type := some "site CONTACT" }] =
      some { b with type := some "Owner / DECISION maker" } ∧
    bestContact [{ a with type := some "Tenant" }, { b with type := some "occupant contact" }] =
      some { b with type := some "occupant contact" } ∧
    bestContact [{ a with type := some "Tenant" }, { b with type := none }] =
      some { a with type := some "Tenant" } := by
  refine ⟨?_, rfl, ?_, ?_, ?_, ?_, ?_, ?_, ?_⟩
  · exact findByPriority_spec contacts contacts.head? typeContainsLabel priorities
      (fun label h => typeIncludes_eq_typeContainsLabel label h)
  · intro label h c
    exact congrFun (typeIncludes_eq_typeContainsLabel label h) c
  · have h1 : typeIncludes "Decision Maker" { a with type := some "Site Contact" } = false := rfl
    have h2 : typeIncludes "Decision Maker" { b with type := some "Decision Maker" } = true := rfl
    simp [bestContact, priorities, findByPriority, List.find?_cons, h1, h2]
  · have h2 : typeIncludes "Decision Maker" { b with type := some "Decision Maker" } = true := rfl
    simp [bestContact, priorities, findByPriority, List.find?_cons, h2]
  · have h1 : typeIncludes "Decision Maker" { a with type := some "site CONTACT" } = false := rfl
    have h2 : typeIncludes "Decision Maker" { b with type := some "Owner / DECISION maker" } =
        true := rfl
    simp [bestContact, priorities, findByPriority, List.find?_cons, h1, h2]
  · have h2 : typeIncludes "Decision Maker" { b with type := some "Owner / DECISION maker" } =
        true := rfl
    simp [bestContact, priorities, findByPriority, List.find?_cons, h2]
  · have h1 : ∀ label ∈ priorities,
        typeIncludes label { a with type := some "Tenant" } = false := by
      intro label h
      simp only [priorities, List.mem_cons, List.mem_singleton, List.not_mem_nil, or_false] at h
      rcases h with h | h | h | h | h <;> subst h <;> rfl
    have h2 : ∀ label ∈ ["Decision Maker", "Best Contact", "Site Contact", "Authorised Contact"],
        typeIncludes label { b with type := some "occupant contact" } = false := by
      intro label h
      simp only [List.mem_cons, List.mem_singleton, List.not_mem_nil, or_false] at h
      rcases h with h | h | h | h <;> subst h <;> rfl
    have h3 : typeIncludes "Occupant Contact" { b with type := some "occupant contact" } =
        true := rfl
    simp [bestContact, priorities, findByPriority, List.find?_cons, h1, h2, h3]
  · have h1 : ∀ label ∈ priorities,
        typeIncludes label { a with type := some "Tenant" } = false := by
      intro label h
      simp only [priorities, List.mem_cons, List.mem_singleton, List.not_mem_nil, or_false] at h
      rcases h with h | h | h | h | h <;> subst h <;> rfl
    have h2 : ∀ label, typeIncludes label { b with type := none } = false := fun _ => rfl
    simp [bestContact, priorities, findByPriority, List.find?_cons, h1, h2]

/-- C18: `validateDescriptionOfWorks` returns true exactly when the text has at least 5
whitespace-separated non-empty tokens, and leaves the create-job button disabled exactly
when it returns false; four words give false, five words give true whatever the
whitespace around and between them. -/
theorem validateDescriptionOfWorks_iff (s : Session) (text : String) :
    ((validateDescriptionOfWorks s text).1 = true ↔ 5 ≤ (tokens text).length) ∧
    (validateDescriptionOfWorks s text).2.session.createJobDisabled =
      !(validateDescriptionOfWorks s text).1 ∧
    (validateDescriptionOfWorks s "one two three four").1 = false ∧
    (validateDescriptionOfWorks s "  one two \n three\tfour   five ").1 = true := by
  have hw := wordCount_eq_tokens text
  refine ⟨?_, ?_, ?_, ?_⟩
  · unfold validateDescriptionOfWorks
    rw [hw]
    by_cases h : (tokens text).length < 5
    · simp [h]
    · simp [h]; omega
  · unfold validateDescriptionOfWorks
    by_cases h : wordCount text < 5 <;> simp [h]
  · have : wordCount "one two three four" = 4 := by decide
    simp [validateDescriptionOfWorks, this]
  · have : wordCount "  one two \n three\tfour   five " = 5 := by decide
    simp [validateDescriptionOfWorks, this]
theorem customerIdOf_first_truthy (result v : JsVal)
    (h : (idCandidates result).find? JsVal.truthy = some v) : customerIdOf result = v := by
  simp only [idCandidates, List.find?_cons, List.find?_nil] at h
  unfold customerIdOf jsOr
  repeat' split at h
  all_goals first
    | (injection h with h; subst h; simp_all)
    | exact absurd h (by simp)

theorem customerIdOf_truthy (result v : JsVal)
    (h : (idCandidates result).find? JsVal.truthy = some v) : v.truthy = true :=
  List.find?_some h

theorem truthy_of_candidate (result v : JsVal)
    (h : (idCandidates result).find? JsVal.truthy = some v) : result.truthy = true := by
  cases result with
  | obj props => rfl
  | _ => simp [idCandidates, JsVal.get, JsVal.truthy, List.find?_cons] at h

theorem truthy_of_isStr (v : JsVal) (s : String) (h : (v.get "status").isStr s = true) :
    v.truthy = true := by
  cases v with
  | obj props => rfl
  | _ => simp [JsVal.get, JsVal.isStr] at h

theorem truthy_of_get_truthy (v : JsVal) (k : String) (h : (v.get k).truthy = true) :
    v.truthy = true := by
  cases v with
  | obj props => rfl
  | _ => simp [JsVal.get, JsVal.truthy] at h

/-- C19: when the create-customer call resolves with a body whose status is "failed" and
whose detail carries a truthy `existingCustomerId`, the add-customer handler holds that
id, enables the create-job button and shows a single notification, of type info,
whatever other identifier fields the body carries. -/
theorem addCustomer_duplicate (s : Session) (dom : Dom) (net : Nat → Attempt)
    (response : Response) (result : JsVal)
    (hdom : shipToRequiredIds.all (fun id => (dom.value id).isSome) = true)
    (hnet : (fetchWithRetry net 0).result = .ok response)
    (hbody : response.body = some result)
    (hstatus : (result.get "status").isStr "failed" = true)
    (hid : ((result.get "detail").get "existingCustomerId").truthy = true) :
    (addCustomerHandler s dom net).session.createdCustomerId =
        (result.get "detail").get "existingCustomerId" ∧
      (addCustomerHandler s dom net).session.createJobDisabled = false ∧
      (addCustomerHandler s dom net).effects =
        [notify ("Customer already exists in RFMS! Using existing ID: " ++
          ((result.get "detail").get "existingCustomerId").toStr) "info"] := by
  have h1 := truthy_of_isStr result "failed" hstatus
  have h2 := truthy_of_get_truthy (result.get "detail") "existingCustomerId" hid
  simp [addCustomerHandler, hdom, hnet, customerResponse, hbody, h1, h2, hstatus, hid]

/-- C20 as amended: for a non-duplicate create-customer response, when `v` is the first
truthy value among id, customerId, customerSeqNum at top level, under result and under
data, the add-customer handler holds `v`, enables the create-job button and reports the
creation with that id. -/
theorem addCustomer_first_truthy_id (s : Session) (dom : Dom) (net : Nat → Attempt)
    (response : Response) (result v : JsVal)
    (hdom : shipToRequiredIds.all (fun id => (dom.value id).isSome) = true)
    (hnet : (fetchWithRetry net 0).result = .ok response)
    (hbody : response.body = some result)
    (hnodup : ((result.get "status").isStr "failed" && (result.get "detail").truthy &&
      ((result.get "detail").get "existingCustomerId").truthy) = false)
    (hfirst : (idCandidates result).find? JsVal.truthy = some v) :
    (addCustomerHandler s dom net).session.createdCustomerId = v ∧
      (addCustomerHandler s dom net).session.createJobDisabled = false ∧
      (addCustomerHandler s dom net).effects =
        [notify ("Customer created in RFMS! ID: " ++ v.toStr) "success"] := by
  have h1 := truthy_of_candidate result v hfirst
  have h2 := customerIdOf_first_truthy result v hfirst
  have h3 := customerIdOf_truthy result v hfirst
  simp only [addCustomerHandler, hdom, ↓reduceIte, hnet, customerResponse, hbody, h1,
    Bool.true_and, hnodup, Bool.false_eq_true, h2, h3, and_self]


/-- C19 at a duplicate response with existing id 4821 that also carries a top-level
id 7. -/
theorem addCustomer_duplicate_witness :
    (shipToRequiredIds.all (fun id => (formWithShipTo.value id).isSome) = true ∧
      (fetchWithRetry netDuplicate 0).result = .ok duplicateResponse) ∧
    ((addCustomerHandler noCustomerSession formWithShipTo netDuplicate).session.createdCustomerId =
        .num 4821 ∧
      (addCustomerHandler noCustomerSession formWithShipTo netDuplicate).session.createJobDisabled = false ∧
      (addCustomerHandler noCustomerSession formWithShipTo netDuplicate).effects =
        [notify ("Customer already exists in RFMS! Using existing ID: " ++ (JsVal.num 4821).toStr) "info"]) ∧
    "Customer already exists in RFMS! Using existing ID: " ++ (JsVal.num 4821).toStr =
      "Customer already exists in RFMS! Using existing ID: 4821" :=
  ⟨⟨by decide, congrArg FetchRun.result (fetchWithRetry_ok netDuplicate 0 duplicateResponse rfl)⟩,
    addCustomer_duplicate noCustomerSession formWithShipTo netDuplicate
      duplicateResponse _ (by decide) (congrArg FetchRun.result (fetchWithRetry_ok netDuplicate 0 duplicateResponse rfl))
      rfl rfl rfl,
    by decide⟩

/-- C20 as amended, at a response whose identifier 913 sits under `result`. -/
theorem addCustomer_first_truthy_id_witness :
    (shipToRequiredIds.all (fun id => (formWithShipTo.value id).isSome) = true ∧
      (fetchWithRetry netNestedId 0).result = .ok nestedIdResponse) ∧
    ((addCustomerHandler noCustomerSession formWithShipTo netNestedId).session.createdCustomerId =
        .num 913 ∧
      (addCustomerHandler noCustomerSession formWithShipTo netNestedId).session.createJobDisabled = false ∧
      (addCustomerHandler noCustomerSession formWithShipTo netNestedId).effects =
        [notify ("Customer created in RFMS! ID: " ++ (JsVal.num 913).toStr) "success"]) :=
  ⟨⟨by decide, congrArg FetchRun.result (fetchWithRetry_ok netNestedId 0 nestedIdResponse rfl)⟩,
    addCustomer_first_truthy_id noCustomerSession formWithShipTo netNestedId
      nestedIdResponse _ (.num 913) (by decide)
      (congrArg FetchRun.result (fetchWithRetry_ok netNestedId 0 nestedIdResponse rfl)) rfl rfl rfl⟩

/-- C20 as stated fails: for the response with top-level id 0 and customerSeqNum 55 the
first identifier present is 0, but the id held by the handler is 55. -/
theorem addCustomer_skips_zero_id :
    (idCandidates (.obj [("id", .num 0), ("customerSeqNum", .num 55)])).find? JsVal.isPresent =
        some (.num 0) ∧
      (addCustomerHandler noCustomerSession formWithShipTo netZeroId).session.createdCustomerId =
        .num 55 ∧
      (addCustomerHandler noCustomerSession formWithShipTo netZeroId).session.createdCustomerId ≠
        .num 0 := by
  have hrun : (fetchWithRetry netZeroId 0).result = .ok zeroIdResponse :=
    congrArg FetchRun.result (fetchWithRetry_ok netZeroId 0 zeroIdResponse rfl)
  have hval : (addCustomerHandler noCustomerSession formWithShipTo
      netZeroId).session.createdCustomerId = .num 55 := by
    have hd : shipToRequiredIds.all (fun id => (formWithShipTo.value id).isSome) = true := by decide
    simp only [addCustomerHandler, hd, ↓reduceIte, hrun]
    rfl
  refine ⟨rfl, hval, ?_⟩
  rw [hval]
  intro h
  cases h

/-! ## Retry bound, customer call, create-job repetition, builder gate, error messages and
phone formatting: properties -/

theorem shouldRetry_lt (k : Nat) (e : JsError) (h : shouldRetry k e = true) : k < 2 := by
  simp only [shouldRetry, API_CONFIG.RETRY_ATTEMPTS, Bool.and_eq_true, decide_eq_true_eq] at h
  exact h.1

/-- One invocation: it settles with its own attempt, or retries. -/
theorem fetchWithRetry_cases (net : Nat → Attempt) (k : Nat) :
    (∃ r, attemptResult (net k) = .ok r ∧
        fetchWithRetry net k = { result := .ok r, attempts := 1 }) ∨
    (∃ e, attemptResult (net k) = .error e ∧ shouldRetry k (markTimeout e) = false ∧
        fetchWithRetry net k = { result := .error (markTimeout e), attempts := 1 }) ∨
    (∃ e, attemptResult (net k) = .error e ∧ k < 2 ∧
        fetchWithRetry net k =
          { result := (fetchWithRetry net (k + 1)).result,
            attempts := (fetchWithRetry net (k + 1)).attempts + 1 }) := by
  cases h : attemptResult (net k) with
  | ok r => exact Or.inl ⟨r, rfl, fetchWithRetry_ok net k r h⟩
  | error e =>
    cases hr : shouldRetry k (markTimeout e) with
    | false => exact Or.inr (Or.inl ⟨e, rfl, hr, fetchWithRetry_throw net k e h hr⟩)
    | true => exact Or.inr (Or.inr ⟨e, rfl, shouldRetry_lt k _ hr, fetchWithRetry_retry net k e h hr⟩)

theorem fetchWithRetry_run (net : Nat → Attempt) :
    ∀ (n k : Nat), 2 - k = n →
      1 ≤ (fetchWithRetry net k).attempts ∧
      ((fetchWithRetry net k).attempts + k ≤ 3 ∨ (fetchWithRetry net k).attempts = 1) ∧
      (∀ j, j + 1 < (fetchWithRetry net k).attempts → ∃ e, attemptResult (net (k + j)) = .error e) ∧
      ((∃ r, attemptResult (net (k + (fetchWithRetry net k).attempts - 1)) = .ok r ∧
          (fetchWithRetry net k).result = .ok r) ∨
        (∃ e, attemptResult (net (k + (fetchWithRetry net k).attempts - 1)) = .error e ∧
          (fetchWithRetry net k).result = .error (markTimeout e))) := by
  intro n
  induction n with
  | zero =>
    intro k hk
    rcases fetchWithRetry_cases net k with ⟨r, h1, h2⟩ | ⟨e, h1, _, h2⟩ | ⟨e, _, hlt, _⟩
    · rw [h2]
      refine ⟨Nat.le_refl _, Or.inr rfl, fun j hj => absurd hj (by simp), Or.inl ⟨r, ?_, rfl⟩⟩
      simpa using h1
    · rw [h2]
      refine ⟨Nat.le_refl _, Or.inr rfl, fun j hj => absurd hj (by simp), Or.inr ⟨e, ?_, rfl⟩⟩
      simpa using h1
    · omega
  | succ n ih =>
    intro k hk
    rcases fetchWithRetry_cases net k with ⟨r, h1, h2⟩ | ⟨e, h1, _, h2⟩ | ⟨e, h1, hlt, h2⟩
    · rw [h2]
      refine ⟨Nat.le_refl _, Or.inr rfl, fun j hj => absurd hj (by simp), Or.inl ⟨r, ?_, rfl⟩⟩
      simpa using h1
    · rw [h2]
      refine ⟨Nat.le_refl _, Or.inr rfl, fun j hj => absurd hj (by simp), Or.inr ⟨e, ?_, rfl⟩⟩
      simpa using h1
    · obtain ⟨i1, i2, i3, i4⟩ := ih (k + 1) (by omega)
      rw [h2]
      simp only
      refine ⟨by omega, Or.inl (by omega), ?_, ?_⟩
      · intro j hj
        cases j with
        | zero => exact ⟨e, by simpa using h1⟩
        | succ j =>
          obtain ⟨e', he'⟩ := i3 j (by omega)
          exact ⟨e', by rw [← he']; congr 2; omega⟩
      · have hidx : k + ((fetchWithRetry net (k + 1)).attempts + 1) - 1 =
            k + 1 + (fetchWithRetry net (k + 1)).attempts - 1 := by omega
        rw [hidx]
        exact i4

theorem attemptResult_ok (a : Attempt) (r : Response) (h : attemptResult a = .ok r) :
    r.ok = true := by
  cases a with
  | response r' =>
    simp only [attemptResult] at h
    split at h
    · exact absurd h (by simp)
    · rename_i hk
      injection h with h
      subst h
      simpa using hk
  | timeout => simp [attemptResult] at h
  | failure n m => simp [attemptResult] at h

theorem fetchWithRetry_result_ok (net : Nat → Attempt) (k : Nat) (r : Response)
    (h : (fetchWithRetry net k).result = .ok r) : r.ok = true := by
  obtain ⟨_, _, _, h4⟩ := fetchWithRetry_run net (2 - k) k rfl
  rcases h4 with ⟨r', h1, h2⟩ | ⟨e, _, h2⟩
  · rw [h2] at h
    injection h with h
    subst h
    exact attemptResult_ok _ _ h1
  · rw [h2] at h
    exact absurd h (by simp)

/-- C28: for every sequence of attempt outcomes, `fetchWithRetry` started with
`retryCount` 0 makes at least one and at most `RETRY_ATTEMPTS + 1 = 3` attempts; every
attempt before the last one failed, and the call resolves with a response exactly when
its last attempt succeeded, with the response of that attempt, and otherwise throws the
error of its last attempt. -/
theorem fetchWithRetry_bounded (net : Nat → Attempt) :
    1 ≤ (fetchWithRetry net 0).attempts ∧
    (fetchWithRetry net 0).attempts ≤ API_CONFIG.RETRY_ATTEMPTS + 1 ∧
    (∀ j, j + 1 < (fetchWithRetry net 0).attempts → ∃ e, attemptResult (net j) = .error e) ∧
    (∀ r, (fetchWithRetry net 0).result = .ok r ↔
      attemptResult (net ((fetchWithRetry net 0).attempts - 1)) = .ok r) ∧
    (∀ e, attemptResult (net ((fetchWithRetry net 0).attempts - 1)) = .error e →
      (fetchWithRetry net 0).result = .error (markTimeout e)) := by
  obtain ⟨h1, h2, h3, h4⟩ := fetchWithRetry_run net 2 0 rfl
  simp only [Nat.zero_add, Nat.add_zero] at h2 h3 h4
  refine ⟨h1, ?_, ?_, ?_, ?_⟩
  · simp only [API_CONFIG.RETRY_ATTEMPTS]; omega
  · exact h3
  · intro r
    rcases h4 with ⟨r', ha, hb⟩ | ⟨e, ha, hb⟩
    · rw [ha, hb]
    · rw [ha, hb]
      constructor <;> intro h <;> exact absurd h (by simp)
  · intro e he
    rcases h4 with ⟨r', ha, _⟩ | ⟨e', ha, hb⟩
    · rw [ha] at he; exact absurd he (by simp)
    · rw [ha] at he
      injection he with he
      rw [hb, he]

theorem customerIdOf_falsy (result : JsVal)
    (h : (idCandidates result).find? JsVal.truthy = none) : (customerIdOf result).truthy = false := by
  have hall := List.find?_eq_none.mp h
  simp only [idCandidates, List.mem_cons, List.mem_singleton, List.not_mem_nil, or_false,
    forall_eq_or_imp, forall_eq, Bool.not_eq_true] at hall
  obtain ⟨h1, h2, h3, h4, h5, h6, h7, h8, h9⟩ := hall
  simp only [customerIdOf, jsOr, h1, h2, h3, h4, h5, h6, h7, h8, h9, Bool.false_eq_true, ↓reduceIte]

/-- C21 as amended: when the create-customer call resolves with a response (which is then
2xx) whose body is a truthy JSON value, is not a duplicate report and carries no truthy
identifier in any recognised field, the add-customer handler holds the sentinel "CREATED"
and enables the create-job button if the body has no truthy error field and its status is
not "failed"; otherwise it leaves the held id as it was, disables the button and shows an
error. -/
theorem addCustomer_without_identifier (s : Session) (dom : Dom) (net : Nat → Attempt)
    (response : Response) (result : JsVal)
    (hdom : shipToRequiredIds.all (fun id => (dom.value id).isSome) = true)
    (hnet : (fetchWithRetry net 0).result = .ok response)
    (hbody : response.body = some result)
    (htruthy : result.truthy = true)
    (hnodup : ((result.get "status").isStr "failed" && (result.get "detail").truthy &&
      ((result.get "detail").get "existingCustomerId").truthy) = false)
    (hnoid : (idCandidates result).find? JsVal.truthy = none) :
    response.ok = true ∧
    (((result.get "error").truthy = false ∧ (result.get "status").isStr "failed" = false) →
      (addCustomerHandler s dom net).session.createdCustomerId = .str "CREATED" ∧
      (addCustomerHandler s dom net).session.createJobDisabled = false) ∧
    (¬ ((result.get "error").truthy = false ∧ (result.get "status").isStr "failed" = false) →
      (addCustomerHandler s dom net).session.createdCustomerId = s.createdCustomerId ∧
      (addCustomerHandler s dom net).session.createJobDisabled = true ∧
      (addCustomerHandler s dom net).effects.filterMap (Effect.messageOfType "error") ≠ []) := by
  have hok := fetchWithRetry_result_ok net 0 response hnet
  have hid := customerIdOf_falsy result hnoid
  refine ⟨hok, ?_, ?_⟩
  · rintro ⟨he, hs⟩
    simp [addCustomerHandler, hdom, hnet, customerResponse, hbody, htruthy, hnodup, hid, he, hs, hok]
  · intro hnot
    have hcond : (!(result.get "error").truthy && !(result.get "status").isStr "failed") = false := by
      cases he : (result.get "error").truthy <;> cases hs : (result.get "status").isStr "failed" <;>
        simp_all
    simp only [addCustomerHandler, hdom, ↓reduceIte, hnet, customerResponse, hbody, htruthy,
      Bool.true_and, hnodup, Bool.false_eq_true, hid, hok, Bool.and_true, hcond]
    simp [notify, Effect.messageOfType]

/-- C21 as amended, at a `201` response whose body is the empty object. -/
theorem addCustomer_without_identifier_witness :
    (shipToRequiredIds.all (fun id => (formWithShipTo.value id).isSome) = true ∧
      (fetchWithRetry netEmptyObject 0).result = .ok emptyObjectResponse) ∧
    (emptyObjectResponse.ok = true ∧
    ((((JsVal.obj []).get "error").truthy = false ∧ ((JsVal.obj []).get "status").isStr "failed" = false) →
      (addCustomerHandler noCustomerSession formWithShipTo netEmptyObject).session.createdCustomerId =
        .str "CREATED" ∧
      (addCustomerHandler noCustomerSession formWithShipTo netEmptyObject).session.createJobDisabled = false) ∧
    (¬ (((JsVal.obj []).get "error").truthy = false ∧ ((JsVal.obj []).get "status").isStr "failed" = false) →
      (addCustomerHandler noCustomerSession formWithShipTo netEmptyObject).session.createdCustomerId =
        noCustomerSession.createdCustomerId ∧
      (addCustomerHandler noCustomerSession formWithShipTo netEmptyObject).session.createJobDisabled = true ∧
      (addCustomerHandler noCustomerSession formWithShipTo netEmptyObject).effects.filterMap
        (Effect.messageOfType "error") ≠ [])) :=
  ⟨⟨by decide, congrArg FetchRun.result (fetchWithRetry_ok netEmptyObject 0 emptyObjectResponse rfl)⟩,
    addCustomer_without_identifier noCustomerSession formWithShipTo netEmptyObject emptyObjectResponse
      (.obj []) (by decide)
      (congrArg FetchRun.result (fetchWithRetry_ok netEmptyObject 0 emptyObjectResponse rfl))
      rfl rfl rfl rfl⟩

/-- C21 as stated fails: a `200` response whose body is `null`, and a `204` response
without JSON body, carry no identifier, no error field and no status "failed", yet the
handler does not hold "CREATED": the id stays absent and the button is disabled. -/
theorem addCustomer_null_body_fails :
    nullBodyResponse.ok = true ∧
      (idCandidates JsVal.null).find? JsVal.isPresent = none ∧
      (JsVal.null.get "error").isPresent = false ∧
      (JsVal.null.get "status").isStr "failed" = false ∧
      (addCustomerHandler noCustomerSession formWithShipTo netNullBody).session.createdCustomerId = .null ∧
      (addCustomerHandler noCustomerSession formWithShipTo netNullBody).session.createJobDisabled = true ∧
      (addCustomerHandler noCustomerSession formWithShipTo netNullBody).effects.filterMap
        (Effect.messageOfType "error") = ["Failed to create customer in RFMS."] ∧
      noContentResponse.ok = true ∧
      (addCustomerHandler noCustomerSession formWithShipTo netNoContent).session.createdCustomerId = .null ∧
      (addCustomerHandler noCustomerSession formWithShipTo netNoContent).session.createJobDisabled = true := by
  have hrun : (fetchWithRetry netNullBody 0).result = .ok nullBodyResponse :=
    congrArg FetchRun.result (fetchWithRetry_ok netNullBody 0 nullBodyResponse rfl)
  have hd : shipToRequiredIds.all (fun id => (formWithShipTo.value id).isSome) = true := by decide
  have hval : addCustomerHandler noCustomerSession formWithShipTo netNullBody =
      customerResponse noCustomerSession (.ok nullBodyResponse) := by
    simp only [addCustomerHandler, hd, ↓reduceIte, hrun]
  have hrun2 : (fetchWithRetry netNoContent 0).result = .ok noContentResponse :=
    congrArg FetchRun.result (fetchWithRetry_ok netNoContent 0 noContentResponse rfl)
  have hval2 : addCustomerHandler noCustomerSession formWithShipTo netNoContent =
      customerResponse noCustomerSession (.ok noContentResponse) := by
    simp only [addCustomerHandler, hd, ↓reduceIte, hrun2]
  rw [hval, hval2]
  exact ⟨rfl, rfl, rfl, rfl, rfl, rfl, rfl, rfl, rfl, rfl⟩

theorem createJobHandler_keeps_id (s : Session) (dom : Dom) (net : Nat → Attempt) :
    (createJobHandler s dom net).session.createdCustomerId = s.createdCustomerId := by
  unfold createJobHandler
  dsimp only
  repeat' split
  all_goals rfl

theorem createJobClick_keeps_id (s : Session) (dom : Dom) (net : Nat → Attempt) :
    (createJobClick s dom net).session.createdCustomerId = s.createdCustomerId := by
  simp only [createJobClick, createJobHandler_keeps_id, validationClickListener_keeps_id]

theorem validation_no_request (s : Session) (dom : Dom) :
    (validationClickListener s dom).effects.any Effect.isCreateJobRequest = false := by
  rcases validationClickListener_effects s dom with he | he <;>
    simp [he, notify, Effect.isCreateJobRequest]

theorem createJobHandler_request_eq (s : Session) (dom : Dom) (net : Nat → Attempt) :
    (createJobHandler s dom net).effects.any Effect.isCreateJobRequest =
      (s.createdCustomerId.truthy && formComplete dom) := by
  unfold createJobHandler formComplete
  cases hid : s.createdCustomerId.truthy
  · simp [notify, Effect.isCreateJobRequest]
  · cases h1 : dom.value "sold-to-name" <;> cases h2 : dom.value "ship-to-name" <;>
      cases h3 : dom.value "po-number" <;>
      simp only [Bool.not_true, Bool.false_eq_true, ↓reduceIte, Bool.true_and, notify,
        List.any_cons, List.any_nil, Effect.isCreateJobRequest, Bool.or_self]
    split
    · rename_i hm
      have hz := Nat.ne_of_gt hm
      simp [hz, Effect.isCreateJobRequest]
    · rename_i hm
      have hz := Nat.eq_zero_of_not_pos hm
      cases hd : dom.value "description-of-works" <;>
        simp [hz, Effect.isCreateJobRequest]

theorem createJobHandler_enabled (s : Session) (dom : Dom) (net : Nat → Attempt)
    (h : (createJobHandler s dom net).effects.any Effect.isCreateJobRequest = true) :
    (createJobHandler s dom net).session.createJobDisabled = false := by
  unfold createJobHandler at h ⊢
  dsimp only at h ⊢
  repeat' split at h
  all_goals first
    | (simp [notify, Effect.isCreateJobRequest] at h; done)
    | skip
  all_goals simp_all

theorem createJobClick_request_eq (s : Session) (dom : Dom) (net : Nat → Attempt) :
    (createJobClick s dom net).effects.any Effect.isCreateJobRequest =
      (s.createdCustomerId.truthy && formComplete dom) := by
  simp only [createJobClick, List.any_append, validation_no_request, Bool.false_or,
    createJobHandler_request_eq, validationClickListener_keeps_id]

theorem createJobClick_enabled (s : Session) (dom : Dom) (net : Nat → Attempt)
    (h : (createJobClick s dom net).effects.any Effect.isCreateJobRequest = true) :
    (createJobClick s dom net).session.createJobDisabled = false := by
  simp only [createJobClick, List.any_append, validation_no_request, Bool.false_or] at h ⊢
  exact createJobHandler_enabled _ dom net h


theorem customerResponse_id_or_no_error (s : Session) (settled : Except JsError Response) :
    (customerResponse s settled).session.createdCustomerId = s.createdCustomerId ∨
      (customerResponse s settled).effects.filterMap (Effect.messageOfType "error") = [] := by
  unfold customerResponse customerCallFailed
  dsimp only
  repeat' split
  all_goals first
    | exact Or.inl rfl
    | exact Or.inr (by simp [notify, Effect.messageOfType])

theorem customerResponse_error_keeps_id (s : Session) (settled : Except JsError Response)
    (h : (customerResponse s settled).effects.filterMap (Effect.messageOfType "error") ≠ []) :
    (customerResponse s settled).session.createdCustomerId = s.createdCustomerId := by
  rcases customerResponse_id_or_no_error s settled with h1 | h1
  · exact h1
  · exact absurd h1 h

theorem addCustomerHandler_error_keeps_id (s : Session) (dom : Dom) (net : Nat → Attempt)
    (h : (addCustomerHandler s dom net).effects.filterMap (Effect.messageOfType "error") ≠ []) :
    (addCustomerHandler s dom net).session.createdCustomerId = s.createdCustomerId := by
  unfold addCustomerHandler at h ⊢
  split at h
  · rename_i hd
    simp only [hd, ↓reduceIte]
    exact customerResponse_error_keeps_id s _ h
  · simp at h

/-- C22: when the client throws, the add-customer handler leaves the held customer id
as it was, and so does every add-customer run that reports an error; a click on the
create-job button never changes the held id, and when it had issued its request the
button is enabled again, so the job step can be retried. -/
theorem failed_submission_keeps_customer (s : Session) (dom : Dom) (net : Nat → Attempt)
    (e : JsError) (hfail : (fetchWithRetry net 0).result = .error e) :
    (addCustomerHandler s dom net).session.createdCustomerId = s.createdCustomerId ∧
    (∀ net' : Nat → Attempt,
      (addCustomerHandler s dom net').effects.filterMap (Effect.messageOfType "error") ≠ [] →
      (addCustomerHandler s dom net').session.createdCustomerId = s.createdCustomerId) ∧
    (createJobClick s dom net).session.createdCustomerId = s.createdCustomerId ∧
    ((createJobClick s dom net).effects.any Effect.isCreateJobRequest = true →
      (createJobClick s dom net).session.createJobDisabled = false) := by
  refine ⟨?_, fun net' h => addCustomerHandler_error_keeps_id s dom net' h,
    createJobClick_keeps_id s dom net, createJobClick_enabled s dom net⟩
  unfold addCustomerHandler
  split
  · rw [hfail]; rfl
  · rfl

/-- C22 at a network on which every attempt fails with "Failed to fetch", from the
session without customer and from the session holding "CREATED". -/
theorem failed_submission_keeps_customer_witness :
    (fetchWithRetry netFailedToFetch 0).result =
        .error { name := "TypeError", message := "Failed to fetch", status := none } ∧
    ((addCustomerHandler noCustomerSession formWithShipTo netFailedToFetch).session.createdCustomerId =
        noCustomerSession.createdCustomerId ∧
      (∀ net' : Nat → Attempt,
        (addCustomerHandler noCustomerSession formWithShipTo net').effects.filterMap
          (Effect.messageOfType "error") ≠ [] →
        (addCustomerHandler noCustomerSession formWithShipTo net').session.createdCustomerId =
          noCustomerSession.createdCustomerId) ∧
      (createJobClick noCustomerSession formWithShipTo netFailedToFetch).session.createdCustomerId =
        noCustomerSession.createdCustomerId ∧
      ((createJobClick noCustomerSession formWithShipTo netFailedToFetch).effects.any
          Effect.isCreateJobRequest = true →
        (createJobClick noCustomerSession formWithShipTo netFailedToFetch).session.createJobDisabled =
          false)) ∧
    ((addCustomerHandler customerCreatedSession completeForm netFailedToFetch).session.createdCustomerId =
        customerCreatedSession.createdCustomerId ∧
      (∀ net' : Nat → Attempt,
        (addCustomerHandler customerCreatedSession completeForm net').effects.filterMap
          (Effect.messageOfType "error") ≠ [] →
        (addCustomerHandler customerCreatedSession completeForm net').session.createdCustomerId =
          customerCreatedSession.createdCustomerId) ∧
      (createJobClick customerCreatedSession completeForm netFailedToFetch).session.createdCustomerId =
        customerCreatedSession.createdCustomerId ∧
      ((createJobClick customerCreatedSession completeForm netFailedToFetch).effects.any
          Effect.isCreateJobRequest = true →
        (createJobClick customerCreatedSession completeForm netFailedToFetch).session.createJobDisabled =
          false)) ∧
    (createJobClick customerCreatedSession completeForm netFailedToFetch).effects.any
      Effect.isCreateJobRequest = true :=
  ⟨congrArg FetchRun.result (fetchWithRetry_throw netFailedToFetch 0
      { name := "TypeError", message := "Failed to fetch", status := none } rfl (by decide)),
    failed_submission_keeps_customer noCustomerSession formWithShipTo netFailedToFetch _
      (congrArg FetchRun.result (fetchWithRetry_throw netFailedToFetch 0
        { name := "TypeError", message := "Failed to fetch", status := none } rfl (by decide))),
    failed_submission_keeps_customer customerCreatedSession completeForm netFailedToFetch _
      (congrArg FetchRun.result (fetchWithRetry_throw netFailedToFetch 0
        { name := "TypeError", message := "Failed to fetch", status := none } rfl (by decide))),
    by decide⟩

/-- C24 as amended: after a click on the create-job button that issued the create-job
request, the held customer id is unchanged and the button is enabled, and a further click
on the same form issues the request again, whatever the network answers. -/
theorem createJob_can_repeat (s : Session) (dom : Dom) (net : Nat → Attempt)
    (h : (createJobClick s dom net).effects.any Effect.isCreateJobRequest = true) :
    (createJobClick s dom net).session.createdCustomerId = s.createdCustomerId ∧
    (createJobClick s dom net).session.createJobDisabled = false ∧
    ∀ net' : Nat → Attempt,
      (createJobClick (createJobClick s dom net).session dom net').effects.any
        Effect.isCreateJobRequest = true := by
  refine ⟨createJobClick_keeps_id s dom net, createJobClick_enabled s dom net h, ?_⟩
  intro net'
  rw [createJobClick_request_eq] at h ⊢
  rw [createJobClick_keeps_id]
  exact h

/-- C24 as amended, at the session holding "CREATED" and a complete form. -/
theorem createJob_can_repeat_witness :
    (createJobClick customerCreatedSession completeForm netJobCreated).effects.any
        Effect.isCreateJobRequest = true ∧
    ((createJobClick customerCreatedSession completeForm netJobCreated).session.createdCustomerId =
        customerCreatedSession.createdCustomerId ∧
      (createJobClick customerCreatedSession completeForm netJobCreated).session.createJobDisabled = false ∧
      ∀ net' : Nat → Attempt,
        (createJobClick (createJobClick customerCreatedSession completeForm netJobCreated).session
          completeForm net').effects.any Effect.isCreateJobRequest = true) :=
  ⟨by decide, createJob_can_repeat customerCreatedSession completeForm netJobCreated (by decide)⟩

/-- C24 as stated fails: after a create-job call that succeeded with job id 7, a second
click without any reset issues the create-job request again. -/
theorem createJob_second_click_sends_request :
    (fetchWithRetry netJobCreated 0).result =
        .ok { status := 200, statusText := "OK", body := some (.obj [("job_id", .num 7)]) } ∧
      (createJobClick customerCreatedSession completeForm netJobCreated).effects.filterMap
          (Effect.messageOfType "success") = ["Job created in RFMS!", "Job created with ID: 7"] ∧
      (createJobClick (createJobClick customerCreatedSession completeForm netJobCreated).session
          completeForm netJobCreated).effects.any Effect.isCreateJobRequest = true := by
  have hrun : (fetchWithRetry netJobCreated 0).result =
      .ok { status := 200, statusText := "OK", body := some (.obj [("job_id", .num 7)]) } :=
    congrArg FetchRun.result (fetchWithRetry_ok netJobCreated 0 _ rfl)
  refine ⟨hrun, ?_, by decide⟩
  have hv : wordCount "Restretch carpet back in bedroom two" = 6 := by decide
  simp [createJobClick, validationClickListener, validateDescriptionOfWorks, createJobHandler,
    completeForm, customerCreatedSession, Dom.value, List.lookup, JsVal.truthy, hv, hrun,
    jobResponseEffects, notify, Effect.messageOfType, JsVal.get, JsVal.toStr]
  rw [if_neg (by decide)]
  rfl

/-- C23, evaluated on the code: none of `upload-pdf-btn`, `pdf-file-input`,
`clear-data-btn` is among the elements on which the reset is registered; after a click on
`upload-pdf-btn`, after the upload that follows, and after a confirmed click on
`clear-data-btn`, the customer id "CREATED" is still held and the create-job button is
still enabled. A click on `upload-button` would reset the session. -/
theorem reset_triggers_miss_upload_and_clear :
    clearTriggers.contains "upload-pdf-btn" = false ∧
      clearTriggers.contains "pdf-file-input" = false ∧
      clearTriggers.contains "clear-data-btn" = false ∧
      (clickElement pageWithCustomer "upload-pdf-btn" false).session.createdCustomerId = .str "CREATED" ∧
      (clickElement pageWithCustomer "upload-pdf-btn" false).session.createJobDisabled = false ∧
      (fileInputChange (clickElement pageWithCustomer "upload-pdf-btn" false)
        noCustomerName).session.createdCustomerId = .str "CREATED" ∧
      (fileInputChange (clickElement pageWithCustomer "upload-pdf-btn" false)
        noCustomerName).session.createJobDisabled = false ∧
      (clickElement pageWithCustomer "clear-data-btn" true).session.createdCustomerId = .str "CREATED" ∧
      (clickElement pageWithCustomer "clear-data-btn" true).session.createJobDisabled = false ∧
      (clickElement pageWithCustomer "clear-data-btn" true).dom.value "po-number" = some "" ∧
      (clickElement pageWithCustomer "upload-button" false).session.createdCustomerId = .null :=
  ⟨by decide, by decide, by decide, rfl, rfl, rfl, rfl, rfl, rfl, by decide, rfl⟩

/-- C25: `checkBuilderSelected` disables the upload button exactly when the builder name
is empty or consists of whitespace only, and shows the warning "Please select a builder
before uploading a PDF" exactly when it leaves the button disabled. -/
theorem checkBuilderSelected_gate (value : String) :
    ((checkBuilderSelected value).uploadDisabled = true ↔ ∀ c ∈ value.data, isJsSpace c = true) ∧
    (checkBuilderSelected value).effects =
      (if (checkBuilderSelected value).uploadDisabled then
        [notify "Please select a builder before uploading a PDF" "warning"]
      else []) := by
  constructor
  · rw [← jsTrim_eq_empty_iff]
    unfold checkBuilderSelected
    by_cases h1 : value = ""
    · subst h1
      simp
      rfl
    · by_cases h2 : jsTrim value = "" <;> simp [h1, h2]
  · unfold checkBuilderSelected
    rfl

/-- C26 as stated fails: for the timeout error, which has no status, `handleApiError`
returns the time-out message for the operation and not the message of the error. -/
theorem handleApiError_timeout_message :
    handleApiError timeoutError "creating job in RFMS" =
        "Request timed out while creating job in RFMS. Please check your connection and try again." ∧
      timeoutError.status = none ∧
      handleApiError timeoutError "creating job in RFMS" ≠ timeoutError.message := by
  decide

/-- C26 as amended: for an error named `AbortError` the message is the time-out message;
for any other error it is the authentication message for status 401 or 403, the
not-found message for 404, the server message for every status of 500 or more, and
otherwise the message of the error when that is not empty and the generic message when
it is; the notification shown has that message and the type "error". -/
theorem handleApiError_cases (error : JsError) (operation : String) :
    (error.name = "AbortError" →
      (handleApiErrorCall error operation).1 =
        "Request timed out while " ++ operation ++ ". Please check your connection and try again.") ∧
    (error.name ≠ "AbortError" →
      ((error.status = some 401 ∨ error.status = some 403) →
        (handleApiErrorCall error operation).1 =
          "Authentication failed while " ++ operation ++ ". Please log in again.") ∧
      (error.status = some 404 →
        (handleApiErrorCall error operation).1 = "Resource not found while " ++ operation ++ ".") ∧
      (∀ n, error.status = some n → 500 ≤ n →
        (handleApiErrorCall error operation).1 =
          "Server error while " ++ operation ++ ". Please try again later.") ∧
      ((error.status = none ∨ ∃ n, error.status = some n ∧ n < 500 ∧ n ≠ 401 ∧ n ≠ 403 ∧ n ≠ 404) →
        (handleApiErrorCall error operation).1 =
          (if error.message ≠ "" then error.message
           else "An error occurred while " ++ operation ++ ". Please try again."))) ∧
    (handleApiErrorCall error operation).2 = [notify (handleApiErrorCall error operation).1 "error"] := by
  refine ⟨?_, ?_, rfl⟩
  · intro h
    simp [handleApiErrorCall, handleApiError, h]
  · intro h
    refine ⟨?_, ?_, ?_, ?_⟩
    · rintro (hs | hs) <;> simp [handleApiErrorCall, handleApiError, h, hs]
    · intro hs
      simp [handleApiErrorCall, handleApiError, h, hs]
    · intro n hs hn
      have h1 : n ≠ 401 := by omega
      have h2 : n ≠ 403 := by omega
      have h3 : n ≠ 404 := by omega
      simp [handleApiErrorCall, handleApiError, h, hs, h1, h2, h3, statusAtLeast500, hn]
    · rintro (hs | ⟨n, hs, hn, h1, h2, h3⟩)
      · simp [handleApiErrorCall, handleApiError, h, hs, statusAtLeast500]
      · have hn' : ¬ 500 ≤ n := by omega
        simp [handleApiErrorCall, handleApiError, h, hs, h1, h2, h3, statusAtLeast500, hn']

/-- C27, evaluated on the code: for the landline "0733334444" the pattern of the landline
branch, with groups of 1, 4 and 4 digits, does not match the ten digits, so
`formatPhoneNumber` returns them ungrouped instead of "07 3333 4444"; the mobile
"0400111222" is grouped as "0400 111 222". -/
theorem formatPhoneNumber_landline_unformatted :
    formatPhoneNumber "0733334444" = "0733334444" ∧
      formatPhoneNumber "(07) 3333 4444" = "0733334444" ∧
      formatPhoneNumber "0733334444" ≠ "07 3333 4444" ∧
      matchGroups [1, 4, 4] "0733334444".data = none ∧
      formatPhoneNumber "0400111222" = "0400 111 222" := by
  decide

end RfmsXtracr
